import Mathlib

/-!
Verification of the StudySpot API backend (`src/main.py` and `src/models/`)
against its natural-language specification.

The program is a FastAPI CRUD service over a PostgreSQL store with two
tables, `studyspots` and `hours` (schema in the comment block at the top of
`main.py`).  Every handler funnels its SQL through `execute_query`, whose
observable semantics we embed here: a SELECT whose result set is empty raises
`HTTPException(404, "Study spot {params.get('id')} not found.")`, a
non-SELECT contributes its rowcount, and `results[0] if len(results)==1 else
results` unwraps singleton batches.  Handler-level `except` clauses are
embedded as explicit error rewrapping.

Modelling conventions:
  * TEXT columns are `String`, BOOLEAN is `Bool`, nullable columns are
    `Option`; the JSONB `environment` column (always written as a JSON array
    of strings) is `List String`.
  * `DOUBLE PRECISION` coordinates are only ever stored and copied, never
    computed with, so they are modelled by the opaque stand-in
    `Coord := Int`.
  * TIME values are minutes-of-day (`Nat`), TIMESTAMP values are an abstract
    clock (`Nat`); `NOW()` is an explicit `now` parameter.
  * Tables are lists of rows; SQL `WHERE key = x` lookups with a single
    expected row are `List.find?` (the `fetchone` of `execute_query`).
  * Python string formatting `f"{status}: {detail}"` of a re-raised
    `HTTPException` (its `__str__`) is `httpStr`.
-/

namespace StudySpotApi

/-- Stand-in for the DOUBLE PRECISION latitude/longitude columns: the backend
only stores and copies coordinates (they originate in the geocoder), so any
type with decidable equality is a faithful carrier. -/
abbrev Coord := Int

/-! ## Enumerations (`src/models/address.py`, `src/models/amenities.py`,
`src/main.py` class `DayOfWeek`) -/

/-- `Neighborhood(str, Enum)` from `src/models/address.py`. -/
inductive Neighborhood
  | financialDistrict
  | tribeca
  | soho
  | chinatown
  | lowerEastSide
  | greenwichVillage
  | eastVillage
  | chelsea
  | flatironDistrict
  | midtown
  | upperWestSide
  | upperEastSide
  | harlem
  | washingtonHeights
  | inwood
deriving DecidableEq, Repr

/-- The string value of each `Neighborhood` member. -/
def Neighborhood.value : Neighborhood → String
  | .financialDistrict => "Financial District (FiDi)"
  | .tribeca => "Tribeca"
  | .soho => "SoHo"
  | .chinatown => "Chinatown"
  | .lowerEastSide => "Lower East Side"
  | .greenwichVillage => "West Village"
  | .eastVillage => "East Village"
  | .chelsea => "Chelsea"
  | .flatironDistrict => "Flatiron District"
  | .midtown => "Midtown"
  | .upperWestSide => "Upper West Side"
  | .upperEastSide => "Upper East Side"
  | .harlem => "Harlem"
  | .washingtonHeights => "Washington Heights"
  | .inwood => "Inwood"

/-- `Neighborhood(s)`: value-based lookup; `none` models the `ValueError`
pydantic/`Enum` raise on an unknown value. -/
def Neighborhood.ofValue (s : String) : Option Neighborhood :=
  if s = "Financial District (FiDi)" then some .financialDistrict
  else if s = "Tribeca" then some .tribeca
  else if s = "SoHo" then some .soho
  else if s = "Chinatown" then some .chinatown
  else if s = "Lower East Side" then some .lowerEastSide
  else if s = "West Village" then some .greenwichVillage
  else if s = "East Village" then some .eastVillage
  else if s = "Chelsea" then some .chelsea
  else if s = "Flatiron District" then some .flatironDistrict
  else if s = "Midtown" then some .midtown
  else if s = "Upper West Side" then some .upperWestSide
  else if s = "Upper East Side" then some .upperEastSide
  else if s = "Harlem" then some .harlem
  else if s = "Washington Heights" then some .washingtonHeights
  else if s = "Inwood" then some .inwood
  else none

theorem neighborhood_ofValue_value (n : Neighborhood) :
    Neighborhood.ofValue n.value = some n := by
  cases n <;> rfl

/-- `Seating(Enum)` from `src/models/amenities.py`. -/
inductive Seating
  | oneToFive
  | sixToTen
  | elevenToTwenty
  | twentyPlus
deriving DecidableEq, Repr

def Seating.value : Seating → String
  | .oneToFive => "1-5"
  | .sixToTen => "6-10"
  | .elevenToTwenty => "11-20"
  | .twentyPlus => "20+"

def Seating.ofValue (s : String) : Option Seating :=
  if s = "1-5" then some .oneToFive
  else if s = "6-10" then some .sixToTen
  else if s = "11-20" then some .elevenToTwenty
  else if s = "20+" then some .twentyPlus
  else none

theorem seating_ofValue_value (s : Seating) : Seating.ofValue s.value = some s := by
  cases s <;> rfl

/-- `Environment(Enum)` from `src/models/amenities.py`. -/
inductive Environment
  | quiet
  | lively
  | outdoor
  | indoor
deriving DecidableEq, Repr

def Environment.value : Environment → String
  | .quiet => "quiet"
  | .lively => "lively"
  | .outdoor => "outdoor"
  | .indoor => "indoor"

def Environment.ofValue (s : String) : Option Environment :=
  if s = "quiet" then some .quiet
  else if s = "lively" then some .lively
  else if s = "outdoor" then some .outdoor
  else if s = "indoor" then some .indoor
  else none

theorem environment_ofValue_value (e : Environment) :
    Environment.ofValue e.value = some e := by
  cases e <;> rfl

/-- `DayOfWeek(str, Enum)` from `src/main.py`. -/
inductive DayOfWeek
  | mon
  | tue
  | wed
  | thu
  | fri
  | sat
  | sun
deriving DecidableEq, Repr

def DayOfWeek.value : DayOfWeek → String
  | .mon => "mon"
  | .tue => "tue"
  | .wed => "wed"
  | .thu => "thu"
  | .fri => "fri"
  | .sat => "sat"
  | .sun => "sun"

/-- The iteration order of the hours-update loop in `update_studyspot`
(`for day in ["mon", "tue", "wed", "thu", "fri", "sat", "sun"]`). -/
def allDays : List DayOfWeek :=
  [.mon, .tue, .wed, .thu, .fri, .sat, .sun]

/-! ## SQL LIKE (`name LIKE :name` with pattern `f"%{v}%"`) -/

/-- PostgreSQL `LIKE` over lists of characters: `%` matches any sequence
(tried against every suffix of the text), `_` any single character,
everything else itself (case sensitive).  Structural recursion on the
pattern so that matches evaluate definitionally. -/
def likeChars : List Char → List Char → Bool
  | [], ts => ts.isEmpty
  | '%' :: ps, ts => (ts.tails).any (fun suffix => likeChars ps suffix)
  | '_' :: _, [] => false
  | '_' :: ps, _ :: ts => likeChars ps ts
  | _ :: _, [] => false
  | p :: ps, c :: ts => p == c && likeChars ps ts

/-- `value LIKE pattern` on strings. -/
def sqlLike (pattern value : String) : Bool :=
  likeChars pattern.data value.data

/-- The `f"%{v}%"` pattern both free-text filters build. -/
def containsPattern (v : String) : String :=
  "%" ++ v ++ "%"

/-! ## MD5 (`hashlib.md5(...).hexdigest()` in `generate_etag`)

A direct implementation of RFC 1321 over byte lists, with 32-bit words as
naturals reduced modulo `2^32`. -/

/-- Reduce to a 32-bit word. -/
def w32 (n : Nat) : Nat := n % 4294967296

/-- 32-bit bitwise complement (the argument is already a 32-bit word). -/
def wnot (n : Nat) : Nat := Nat.xor (w32 n) 4294967295

/-- 32-bit left rotation. -/
def rotl32 (x s : Nat) : Nat :=
  w32 ((w32 x) <<< s) + ((w32 x) >>> (32 - s))

/-- The 64 MD5 sine-derived constants `K[i]`. -/
def md5K : List Nat :=
  [0xd76aa478, 0xe8c7b756, 0x242070db, 0xc1bdceee,
   0xf57c0faf, 0x4787c62a, 0xa8304613, 0xfd469501,
   0x698098d8, 0x8b44f7af, 0xffff5bb1, 0x895cd7be,
   0x6b901122, 0xfd987193, 0xa679438e, 0x49b40821,
   0xf61e2562, 0xc040b340, 0x265e5a51, 0xe9b6c7aa,
   0xd62f105d, 0x02441453, 0xd8a1e681, 0xe7d3fbc8,
   0x21e1cde6, 0xc33707d6, 0xf4d50d87, 0x455a14ed,
   0xa9e3e905, 0xfcefa3f8, 0x676f02d9, 0x8d2a4c8a,
   0xfffa3942, 0x8771f681, 0x6d9d6122, 0xfde5380c,
   0xa4beea44, 0x4bdecfa9, 0xf6bb4b60, 0xbebfbc70,
   0x289b7ec6, 0xeaa127fa, 0xd4ef3085, 0x04881d05,
   0xd9d4d039, 0xe6db99e5, 0x1fa27cf8, 0xc4ac5665,
   0xf4292244, 0x432aff97, 0xab9423a7, 0xfc93a039,
   0x655b59c3, 0x8f0ccc92, 0xffeff47d, 0x85845dd1,
   0x6fa87e4f, 0xfe2ce6e0, 0xa3014314, 0x4e0811a1,
   0xf7537e82, 0xbd3af235, 0x2ad7d2bb, 0xeb86d391]

/-- The 64 MD5 per-round shift amounts `s[i]`. -/
def md5S : List Nat :=
  [7, 12, 17, 22, 7, 12, 17, 22, 7, 12, 17, 22, 7, 12, 17, 22,
   5, 9, 14, 20, 5, 9, 14, 20, 5, 9, 14, 20, 5, 9, 14, 20,
   4, 11, 16, 23, 4, 11, 16, 23, 4, 11, 16, 23, 4, 11, 16, 23,
   6, 10, 15, 21, 6, 10, 15, 21, 6, 10, 15, 21, 6, 10, 15, 21]

/-- Four bytes, little endian, to a 32-bit word. -/
def bytesToWord (bs : List Nat) : Nat :=
  match bs with
  | [b0, b1, b2, b3] => b0 + 256 * b1 + 65536 * b2 + 16777216 * b3
  | _ => 0

/-- A 32-bit word to four bytes, little endian. -/
def wordToBytes (n : Nat) : List Nat :=
  [n % 256, (n >>> 8) % 256, (n >>> 16) % 256, (n >>> 24) % 256]

/-- One MD5 step `i` of a 64-step block round on state `(a, b, c, d)`;
`m j` is word `j` of the current 16-word block. -/
def md5Step (m : Nat → Nat) (st : Nat × Nat × Nat × Nat) (i : Nat) :
    Nat × Nat × Nat × Nat :=
  let a := st.1
  let b := st.2.1
  let c := st.2.2.1
  let d := st.2.2.2
  let f :=
    if i < 16 then Nat.lor (Nat.land b c) (Nat.land (wnot b) d)
    else if i < 32 then Nat.lor (Nat.land d b) (Nat.land (wnot d) c)
    else if i < 48 then Nat.xor (Nat.xor b c) d
    else Nat.xor c (Nat.lor b (wnot d))
  let g :=
    if i < 16 then i
    else if i < 32 then (5 * i + 1) % 16
    else if i < 48 then (3 * i + 5) % 16
    else (7 * i) % 16
  let rot := rotl32 (w32 (a + f + md5K.getD i 0 + m g)) (md5S.getD i 0)
  (d, w32 (b + rot), b, c)

/-- Process a 64-byte block: 64 steps followed by the feed-forward add. -/
def md5Block (h : Nat × Nat × Nat × Nat) (block : List Nat) :
    Nat × Nat × Nat × Nat :=
  let m : Nat → Nat := fun j => bytesToWord ((block.drop (4 * j)).take 4)
  let st := (List.range 64).foldl (md5Step m) h
  (w32 (h.1 + st.1), w32 (h.2.1 + st.2.1),
   w32 (h.2.2.1 + st.2.2.1), w32 (h.2.2.2 + st.2.2.2))

/-- MD5 padding: a `0x80` byte, zeros to 56 mod 64 bytes, then the 64-bit
little-endian bit length of the message. -/
def md5Pad (msg : List Nat) : List Nat :=
  let bitLen := 8 * msg.length
  let zeros := (119 - msg.length % 64) % 64
  msg ++ [0x80] ++ List.replicate zeros 0 ++
    ((List.range 8).map (fun i => (bitLen >>> (8 * i)) % 256))

/-- Split a padded message into 64-byte blocks. -/
def toBlocks : List Nat → List (List Nat)
  | [] => []
  | b :: bs => ((b :: bs).take 64) :: toBlocks ((b :: bs).drop 64)
termination_by bs => bs.length
decreasing_by simp [List.length_drop]; omega

/-- The MD5 state after digesting a byte list. -/
def md5Sum (msg : List Nat) : Nat × Nat × Nat × Nat :=
  (toBlocks (md5Pad msg)).foldl md5Block
    (0x67452301, 0xefcdab89, 0x98badcfe, 0x10325476)

/-- One byte as two lowercase hex characters. -/
def byteToHex (b : Nat) : String :=
  let digit : Nat → Char := fun n =>
    if n < 10 then Char.ofNat (48 + n) else Char.ofNat (87 + n)
  String.mk [digit (b / 16 % 16), digit (b % 16)]

/-- `hashlib.md5(bytes).hexdigest()`. -/
def md5Hex (msg : List Nat) : String :=
  let st := md5Sum msg
  String.join
    (((wordToBytes st.1 ++ wordToBytes st.2.1 ++
       wordToBytes st.2.2.1 ++ wordToBytes st.2.2.2).map byteToHex))

/-- `data.encode('utf-8')` for the ASCII strings the backend hashes. -/
def strBytes (s : String) : List Nat :=
  s.data.map Char.toNat

/-- `generate_etag` from `src/main.py`: the MD5 hex digest of the UTF-8
bytes of its argument. -/
def generate_etag (data : String) : String :=
  md5Hex (strBytes data)

/-! ## Database rows (the `studyspots` and `hours` tables of the CREATE
TABLE comment in `src/main.py`) -/

/-- A row of the `studyspots` table.  Enum-valued TEXT columns
(`neighborhood`, `seating`) hold the enum's `.value` string; `environment`
is the JSONB array of environment value strings. -/
structure SpotRow where
  id : String
  name : String
  street : String
  city : String
  state : String
  postal_code : String
  latitude : Option Coord
  longitude : Option Coord
  neighborhood : String
  wifi_available : Bool
  wifi_network : Option String
  outlets : Bool
  seating : String
  refreshments : Option String
  environment : List String
  created_at : Nat
  updated_at : Nat
deriving DecidableEq, Repr

/-- The fourteen `TIME` columns of the `hours` table (minutes of day,
`none` = SQL NULL = closed that day). -/
structure HoursFields where
  mon_start : Option Nat
  mon_end : Option Nat
  tue_start : Option Nat
  tue_end : Option Nat
  wed_start : Option Nat
  wed_end : Option Nat
  thu_start : Option Nat
  thu_end : Option Nat
  fri_start : Option Nat
  fri_end : Option Nat
  sat_start : Option Nat
  sat_end : Option Nat
  sun_start : Option Nat
  sun_end : Option Nat
deriving DecidableEq, Repr

/-- Column read `h.{day}_start` (`isStart = true`) or `h.{day}_end`. -/
def HoursFields.get (h : HoursFields) (d : DayOfWeek) (isStart : Bool) :
    Option Nat :=
  match d, isStart with
  | .mon, true => h.mon_start
  | .mon, false => h.mon_end
  | .tue, true => h.tue_start
  | .tue, false => h.tue_end
  | .wed, true => h.wed_start
  | .wed, false => h.wed_end
  | .thu, true => h.thu_start
  | .thu, false => h.thu_end
  | .fri, true => h.fri_start
  | .fri, false => h.fri_end
  | .sat, true => h.sat_start
  | .sat, false => h.sat_end
  | .sun, true => h.sun_start
  | .sun, false => h.sun_end

/-- Column assignment `SET {day}_start = v` / `SET {day}_end = v`. -/
def HoursFields.set (h : HoursFields) (d : DayOfWeek) (isStart : Bool)
    (v : Nat) : HoursFields :=
  match d, isStart with
  | .mon, true => { h with mon_start := some v }
  | .mon, false => { h with mon_end := some v }
  | .tue, true => { h with tue_start := some v }
  | .tue, false => { h with tue_end := some v }
  | .wed, true => { h with wed_start := some v }
  | .wed, false => { h with wed_end := some v }
  | .thu, true => { h with thu_start := some v }
  | .thu, false => { h with thu_end := some v }
  | .fri, true => { h with fri_start := some v }
  | .fri, false => { h with fri_end := some v }
  | .sat, true => { h with sat_start := some v }
  | .sat, false => { h with sat_end := some v }
  | .sun, true => { h with sun_start := some v }
  | .sun, false => { h with sun_end := some v }

theorem HoursFields.get_set (h : HoursFields) (d d' : DayOfWeek)
    (b b' : Bool) (v : Nat) :
    (h.set d' b' v).get d b =
      if d == d' && b == b' then some v else h.get d b := by
  cases d <;> cases d' <;> cases b <;> cases b' <;> rfl

/-- A row of the `hours` table. -/
structure HoursRow where
  hour_id : String
  studyspot_id : String
  hf : HoursFields
deriving DecidableEq, Repr

/-- The relational store. -/
structure DB where
  studyspots : List SpotRow
  hours : List HoursRow
deriving DecidableEq, Repr

/-- `SELECT * FROM studyspots s JOIN hours h ON s.id = h.studyspot_id`:
every (spot, hours) pair whose key columns agree, spots outermost. -/
def joinRows (db : DB) : List (SpotRow × HoursRow) :=
  db.studyspots.flatMap
    (fun s => (db.hours.filter (fun h => h.studyspot_id == s.id)).map
      (fun h => (s, h)))

/-- The joined single-spot read every handler issues
(`... WHERE s.id = :id` with `fetchone`). -/
def selectSpotJoined (db : DB) (id : String) : Option (SpotRow × HoursRow) :=
  (joinRows db).find? (fun rh => rh.1.id == id)

/-! ## HTTP errors -/

/-- A raised `HTTPException`. -/
structure HTTPError where
  status : Nat
  detail : String
deriving DecidableEq, Repr

/-- `str(e)` of a `fastapi.HTTPException` (Starlette renders
`f"{status_code}: {detail}"`). -/
def httpStr (e : HTTPError) : String :=
  toString e.status ++ ": " ++ e.detail

/-- The 404 `execute_query` raises when a SELECT result set is empty:
`f"Study spot {params.get('id')} not found."`; `idText` is the rendering of
`params.get("id")` (the literal `"None"` when the params carry no `id`
key, as in `list_studyspots`). -/
def notFound (idText : String) : HTTPError :=
  { status := 404, detail := "Study spot " ++ idText ++ " not found." }

/-- `except Exception as e: raise HTTPException(status_code=500,
detail=str(e))` applied to a propagating `HTTPException`: the blanket
handler-boundary rewrap in `create_studyspot`, `list_studyspots`,
`get_studyspot` and `delete_studyspot` (those handlers have no
`except HTTPException: raise` arm). -/
def rewrap500 {α : Type} (r : Except HTTPError α) : Except HTTPError α :=
  match r with
  | .error e => .error { status := 500, detail := httpStr e }
  | .ok v => .ok v

/-! ## Response and payload shapes (`src/models/*.py`) -/

/-- `AddressRead` as the handlers populate it from a joined row. -/
structure AddressOut where
  street : String
  city : String
  state : String
  postal_code : String
  latitude : Option Coord
  longitude : Option Coord
  neighborhood : Neighborhood
deriving DecidableEq, Repr

/-- `AmenitiesRead` as the handlers populate it from a joined row. -/
structure AmenitiesOut where
  wifi_available : Bool
  wifi_network : Option String
  outlets : Bool
  seating : Seating
  refreshments : Option String
  environment : List Environment
deriving DecidableEq, Repr

/-- The `data` part of a `StudySpotResponse` (a `StudySpotRead`). -/
structure StudySpotOut where
  id : String
  name : String
  address : AddressOut
  amenity : AmenitiesOut
  hour : HoursFields
  created_at : Nat
  updated_at : Nat
deriving DecidableEq, Repr

/-- Placeholder for the `str(e)` of the `ValueError`/`ValidationError`
raised when a stored enum string does not convert back to its enum
(`Environment(env)`, `Seating(...)`, pydantic coercion); the exact text is
interpreter-dependent and no claim depends on it. -/
def enumErr : String := "invalid enum value in stored row"

/-- The shared response-building block of `create_studyspot`,
`list_studyspots`, `get_studyspot` and `update_studyspot`: a joined row to a
`StudySpotRead`.  `none` models the exception raised when an enum-valued
column does not convert back. -/
def rowToOut (s : SpotRow) (h : HoursFields) : Option StudySpotOut :=
  match Neighborhood.ofValue s.neighborhood, Seating.ofValue s.seating,
      s.environment.mapM Environment.ofValue with
  | some nb, some st, some env =>
      some
        { id := s.id
          name := s.name
          address :=
            { street := s.street, city := s.city, state := s.state
              postal_code := s.postal_code, latitude := s.latitude
              longitude := s.longitude, neighborhood := nb }
          amenity :=
            { wifi_available := s.wifi_available
              wifi_network := s.wifi_network, outlets := s.outlets
              seating := st, refreshments := s.refreshments
              environment := env }
          hour := h
          created_at := s.created_at
          updated_at := s.updated_at }
  | _, _, _ => none

/-- `AddressBase` as supplied in a `StudySpotCreate` payload. -/
structure AddressPayload where
  street : String
  city : String
  state : String
  postal_code : String
  latitude : Option Coord
  longitude : Option Coord
  neighborhood : Neighborhood
deriving DecidableEq, Repr

/-- `AmenitiesBase` as supplied in a `StudySpotCreate` payload. -/
structure AmenitiesPayload where
  wifi_available : Bool
  wifi_network : Option String
  outlets : Bool
  seating : Seating
  refreshments : Option String
  environment : Option (List Environment)
deriving DecidableEq, Repr

/-- A `StudySpotCreate` payload (`hour` is the fourteen optional times of
`HoursBase`). -/
structure StudySpotCreatePayload where
  name : String
  address : AddressPayload
  amenity : AmenitiesPayload
  hour : HoursFields
deriving DecidableEq, Repr

/-- Placeholder for the psycopg2 `IntegrityError` text wrapped by
`execute_query` into `HTTPException(500, f"DB Error: {e}")` when an INSERT
hits an existing primary key. -/
def dupKeyErr : HTTPError :=
  { status := 500, detail := "DB Error: duplicate key value violates unique constraint" }

/-! ## POST /studyspots (`create_studyspot`) -/

/-- The `INSERT INTO studyspots ... VALUES ...` row of `create_studyspot`:
enum values stored as their `.value` strings, the environment list as
`Json([env.value for env in (studyspot.amenity.environment or [])])`, and
both timestamps `NOW()`. -/
def createdRow (p : StudySpotCreatePayload) (spotId : String) (now : Nat) :
    SpotRow :=
  { id := spotId, name := p.name
    street := p.address.street, city := p.address.city
    state := p.address.state, postal_code := p.address.postal_code
    latitude := p.address.latitude, longitude := p.address.longitude
    neighborhood := p.address.neighborhood.value
    wifi_available := p.amenity.wifi_available
    wifi_network := p.amenity.wifi_network
    outlets := p.amenity.outlets
    seating := p.amenity.seating.value
    refreshments := p.amenity.refreshments
    environment := (p.amenity.environment.getD []).map Environment.value
    created_at := now, updated_at := now }

/-- The `INSERT INTO hours ... VALUES ...` row of `create_studyspot`. -/
def createdHoursRow (p : StudySpotCreatePayload) (spotId hourId : String) :
    HoursRow :=
  { hour_id := hourId, studyspot_id := spotId, hf := p.hour }

/-- `create_studyspot`: inserts the `studyspots` row and the `hours` row
(ids are the caller-supplied stand-ins for `uuid4()`, `NOW()` is `now`),
re-selects the joined row and shapes the response.  The whole body sits in
`try: ... except Exception as e: raise HTTPException(500, str(e))`, so a
propagating `HTTPException` is rewrapped as a 500. -/
def create_studyspot (db : DB) (p : StudySpotCreatePayload)
    (spotId hourId : String) (now : Nat) : DB × Except HTTPError StudySpotOut :=
  if (db.studyspots.any (fun r => r.id == spotId)) ||
      (db.hours.any (fun h => h.hour_id == hourId)) then
    -- primary-key violation inside the transaction: nothing is written
    (db, rewrap500 (.error dupKeyErr))
  else
    let row : SpotRow := createdRow p spotId now
    let hrow : HoursRow := createdHoursRow p spotId hourId
    let db1 : DB := { studyspots := db.studyspots ++ [row], hours := db.hours ++ [hrow] }
    match selectSpotJoined db1 spotId with
    | none => (db, rewrap500 (.error (notFound spotId)))
    | some (s, h) =>
        match rowToOut s h.hf with
        | none => (db1, .error { status := 500, detail := enumErr })
        | some out => (db1, .ok out)

/-! ## GET /studyspots/{id} (`get_studyspot`) -/

/-- A successful `get_studyspot` outcome: 304 with the ETag header and no
body when `If-None-Match` matches, otherwise the body with the ETag. -/
inductive GetResult
  | notModified (etag : String)
  | body (etag : String) (data : StudySpotOut)
deriving DecidableEq, Repr

def GetResult.etag : GetResult → String
  | .notModified e => e
  | .body e _ => e

/-- The ETag source string `f"{spot['id']}-{spot.get('updated_at') or ''}"`
(the timestamp rendered through the abstract clock's `toString`; the
`or ''` only catches a NULL column, which no write path produces). -/
def etagSource (s : SpotRow) : String :=
  s.id ++ "-" ++ toString s.updated_at

/-- `get_studyspot`.  Note the handler's only `except` arm is the blanket
`except Exception as e: raise HTTPException(500, str(e))`, so the 404 that
`execute_query` raises for a missing id leaves the handler as a 500. -/
def get_studyspot (db : DB) (id : String) (if_none_match : Option String) :
    DB × Except HTTPError GetResult :=
  match selectSpotJoined db id with
  | none => (db, rewrap500 (.error (notFound id)))
  | some (s, h) =>
      let etag := generate_etag (etagSource s)
      if if_none_match == some etag then
        (db, .ok (.notModified etag))
      else
        match rowToOut s h.hf with
        | none => (db, .error { status := 500, detail := enumErr })
        | some out => (db, .ok (.body etag out))

/-! ## GET /studyspots (`list_studyspots`) -/

/-- The optional query parameters of `list_studyspots`. -/
structure ListFilters where
  name : Option String
  neighborhood : Option Neighborhood
  wifi : Option Bool
  outlets : Option Bool
  seating : Option Seating
  refreshments : Option String
  environment : Option Environment
  open_day : Option DayOfWeek
  open_now : Option Bool
deriving DecidableEq, Repr

/-- No query parameter supplied. -/
def noFilters : ListFilters :=
  { name := none, neighborhood := none, wifi := none, outlets := none
    seating := none, refreshments := none, environment := none
    open_day := none, open_now := none }

/-- One `AND ...` predicate clause the query builder can append. -/
inductive FilterClause
  | nameLike (pattern : String)
  | neighborhoodEq (v : String)
  | wifiEq (b : Bool)
  | outletsEq (b : Bool)
  | seatingEq (v : String)
  | refreshmentsLike (pattern : String)
  | envContains (v : String)
  | openDayNotNull (d : DayOfWeek)
  | openNowBetween (d : DayOfWeek) (t : Nat)
deriving DecidableEq, Repr

/-- SQL truth of a clause at a joined row.  A NULL `refreshments` column
makes `refreshments LIKE ...` NULL, which WHERE drops; likewise the NULL
comparisons of the `open_now` clause. -/
def FilterClause.eval : FilterClause → SpotRow × HoursRow → Bool
  | .nameLike pat, rh => sqlLike pat rh.1.name
  | .neighborhoodEq v, rh => rh.1.neighborhood == v
  | .wifiEq b, rh => rh.1.wifi_available == b
  | .outletsEq b, rh => rh.1.outlets == b
  | .seatingEq v, rh => rh.1.seating == v
  | .refreshmentsLike pat, rh =>
      match rh.1.refreshments with
      | some r => sqlLike pat r
      | none => false
  | .envContains v, rh => rh.1.environment.contains v
  | .openDayNotNull d, rh => (rh.2.hf.get d true).isSome
  | .openNowBetween d t, rh =>
      (match rh.2.hf.get d true with
       | some a => decide (a ≤ t)
       | none => false) &&
      (match rh.2.hf.get d false with
       | some b => decide (t ≤ b)
       | none => false)

/-- The query builder of `list_studyspots`: the `AND` clauses appended, in
program order, for the parameters that pass each guard.  `if name:` and
`if refreshments:` test Python truthiness, so a supplied empty string
appends nothing; `if open_now:` appends only for `True` and bakes in the
server's current weekday and time. -/
def buildClauses (f : ListFilters) (currentDay : DayOfWeek)
    (currentTime : Nat) : List FilterClause :=
  (match f.name with
   | some n => if n.isEmpty then [] else [.nameLike (containsPattern n)]
   | none => []) ++
  (match f.neighborhood with
   | some nb => [.neighborhoodEq nb.value]
   | none => []) ++
  (match f.wifi with
   | some b => [.wifiEq b]
   | none => []) ++
  (match f.outlets with
   | some b => [.outletsEq b]
   | none => []) ++
  (match f.seating with
   | some s => [.seatingEq s.value]
   | none => []) ++
  (match f.refreshments with
   | some r => if r.isEmpty then [] else [.refreshmentsLike (containsPattern r)]
   | none => []) ++
  (match f.environment with
   | some e => [.envContains e.value]
   | none => []) ++
  (match f.open_day with
   | some d => [.openDayNotNull d]
   | none => []) ++
  (match f.open_now with
   | some true => [.openNowBetween currentDay currentTime]
   | _ => [])

/-- The WHERE predicate: `1=1` AND every appended clause. -/
def matchesRow (f : ListFilters) (currentDay : DayOfWeek) (currentTime : Nat)
    (rh : SpotRow × HoursRow) : Bool :=
  (buildClauses f currentDay currentTime).all (fun c => c.eval rh)

/-- `math.ceil(total / page_size)` for a positive page size. -/
def pyCeilDiv (total pageSize : Nat) : Nat :=
  (total + pageSize - 1) / pageSize

/-- What `list_studyspots` shapes per request: the page's items and the
`total_pages` figure its pagination links use. -/
structure ListPage where
  items : List StudySpotOut
  totalPages : Nat
deriving DecidableEq, Repr

/-- `list_studyspots`.  The filtered join is paginated with
`LIMIT :page_size OFFSET :offset`, `offset = (page-1)*page_size`; a
negative bound is a database error.  `execute_query` raises its 404 (with
`params.get("id")` = `None`) whenever the page's result set is empty, and
the handler's blanket `except Exception` rewraps it as a 500.  The count
query runs the same predicate without LIMIT/OFFSET; `total_pages =
max(1, math.ceil(total_len / page_size))`. -/
def list_studyspots (db : DB) (f : ListFilters) (currentDay : DayOfWeek)
    (currentTime : Nat) (page pageSize : Int) :
    DB × Except HTTPError ListPage :=
  let offset : Int := (page - 1) * pageSize
  if offset < 0 || pageSize < 0 then
    (db, rewrap500 (.error
      (HTTPError.mk 500 "DB Error: OFFSET and LIMIT must not be negative")))
  else
    let rows := (joinRows db).filter (matchesRow f currentDay currentTime)
    let pageRows := (rows.drop offset.toNat).take pageSize.toNat
    if pageRows.isEmpty then
      (db, rewrap500 (.error (notFound "None")))
    else
      let total := rows.length
      let totalPages := max 1 (pyCeilDiv total pageSize.toNat)
      match pageRows.mapM (fun rh => rowToOut rh.1 rh.2.hf) with
      | none => (db, .error { status := 500, detail := enumErr })
      | some items => (db, .ok { items := items, totalPages := totalPages })

/-! ## DELETE /studyspots/{id} (`delete_studyspot`) -/

/-- What `execute_query` hands back for a batch of non-SELECT statements:
the rowcounts, unwrapped when the batch has exactly one
(`results[0] if len(results)==1 else results`). -/
inductive PyRowcounts
  | scalar (n : Int)
  | list (ns : List Int)
deriving DecidableEq, Repr

/-- Python `x == 0` on such a value: an `int` compares by value, a `list`
compared with an `int` is always `False`. -/
def PyRowcounts.eqZero : PyRowcounts → Bool
  | .scalar n => n == 0
  | .list _ => false

/-- `delete_studyspot`: deletes the `hours` rows then the `studyspots`
row.  The batch has two statements, so `execute_query` returns the
two-element rowcount list, and the handler's `if spot == 0` check compares
that list with an integer. -/
def delete_studyspot (db : DB) (id : String) : DB × Except HTTPError Unit :=
  let hoursKept := db.hours.filter (fun h => !(h.studyspot_id == id))
  let spotsKept := db.studyspots.filter (fun r => !(r.id == id))
  let counts : PyRowcounts :=
    .list [(db.hours.length - hoursKept.length : Int),
           (db.studyspots.length - spotsKept.length : Int)]
  if counts.eqZero then
    (db, rewrap500 (.error (notFound id)))
  else
    ({ studyspots := spotsKept, hours := hoursKept }, .ok ())

/-! ## PATCH /studyspots/{id} (`update_studyspot`) -/

/-- The optional query parameters of `update_studyspot`. -/
structure PatchParams where
  name : Option String
  street : Option String
  city : Option String
  neighborhood : Option Neighborhood
  wifi_available : Option Bool
  wifi_network : Option String
  outlets : Option Bool
  seating : Option Seating
  refreshments : Option String
  environment : Option (List Environment)
  mon_start : Option Nat
  mon_end : Option Nat
  tue_start : Option Nat
  tue_end : Option Nat
  wed_start : Option Nat
  wed_end : Option Nat
  thu_start : Option Nat
  thu_end : Option Nat
  fri_start : Option Nat
  fri_end : Option Nat
  sat_start : Option Nat
  sat_end : Option Nat
  sun_start : Option Nat
  sun_end : Option Nat
deriving DecidableEq, Repr

/-- A PATCH request that supplies nothing. -/
def emptyPatch : PatchParams :=
  { name := none, street := none, city := none, neighborhood := none
    wifi_available := none, wifi_network := none, outlets := none
    seating := none, refreshments := none, environment := none
    mon_start := none, mon_end := none, tue_start := none, tue_end := none
    wed_start := none, wed_end := none, thu_start := none, thu_end := none
    fri_start := none, fri_end := none, sat_start := none, sat_end := none
    sun_start := none, sun_end := none }

/-- `locals()[f"{day}_start"]` of the hours-update loop. -/
def PatchParams.hourStart (p : PatchParams) : DayOfWeek → Option Nat
  | .mon => p.mon_start
  | .tue => p.tue_start
  | .wed => p.wed_start
  | .thu => p.thu_start
  | .fri => p.fri_start
  | .sat => p.sat_start
  | .sun => p.sun_start

/-- `locals()[f"{day}_end"]` of the hours-update loop. -/
def PatchParams.hourEnd (p : PatchParams) : DayOfWeek → Option Nat
  | .mon => p.mon_end
  | .tue => p.tue_end
  | .wed => p.wed_end
  | .thu => p.thu_end
  | .fri => p.fri_end
  | .sat => p.sat_end
  | .sun => p.sun_end

/-- One `column = :param` assignment of the `UPDATE studyspots` SET
clause. -/
inductive SpotSet
  | setName (v : String)
  | setStreet (v : String)
  | setLatitude (v : Coord)
  | setLongitude (v : Coord)
  | setPostalCode (v : String)
  | setCity (v : String)
  | setNeighborhood (v : String)
  | setWifiAvailable (v : Bool)
  | setWifiNetwork (v : String)
  | setOutlets (v : Bool)
  | setSeating (v : String)
  | setRefreshments (v : String)
  | setEnvironment (v : List String)
deriving DecidableEq, Repr

/-- Apply one SET assignment to a `studyspots` row. -/
def applySpotSet (r : SpotRow) : SpotSet → SpotRow
  | .setName v => { r with name := v }
  | .setStreet v => { r with street := v }
  | .setLatitude v => { r with latitude := some v }
  | .setLongitude v => { r with longitude := some v }
  | .setPostalCode v => { r with postal_code := v }
  | .setCity v => { r with city := v }
  | .setNeighborhood v => { r with neighborhood := v }
  | .setWifiAvailable v => { r with wifi_available := v }
  | .setWifiNetwork v => { r with wifi_network := some v }
  | .setOutlets v => { r with outlets := v }
  | .setSeating v => { r with seating := v }
  | .setRefreshments v => { r with refreshments := some v }
  | .setEnvironment v => { r with environment := v }

def applySpotClauses (cs : List SpotSet) (r : SpotRow) : SpotRow :=
  cs.foldl applySpotSet r

/-- The successful result of `get_geocode(street, city, state)`: latitude,
longitude and the postal code it extracts (`get_geocode` either binds a
postal-code string from the address components or raises, so success
always carries one).  An `Except.error` is the exception text. -/
abbrev GeoFun := String → String → String → Except String (Coord × Coord × String)

/-- One `if value is not None: fields.append(...)` step of the SET-clause
collection: a supplied value appends its assignment, an absent one appends
nothing. -/
def optClause {α : Type} (o : Option α) (f : α → SpotSet) : List SpotSet :=
  match o with
  | some v => [f v]
  | none => []

/-- `fields_studyspots`, in program order.  A supplied `street` also
appends the latitude/longitude/postal-code assignments computed by the
inline `get_geocode(street=street)` call (`g` carries its result; it is
`some _` exactly when `street` was supplied and the geocoder succeeded).
The enum-valued parameters append their `.value` string. -/
def buildSpotClauses (p : PatchParams) (g : Option (Coord × Coord × String)) :
    List SpotSet :=
  optClause p.name .setName ++
  (match p.street, g with
   | some v, some glr =>
      [.setStreet v, .setLatitude glr.1, .setLongitude glr.2.1,
       .setPostalCode glr.2.2]
   | _, _ => []) ++
  optClause p.city .setCity ++
  optClause (p.neighborhood.map Neighborhood.value) .setNeighborhood ++
  optClause p.wifi_available .setWifiAvailable ++
  optClause p.wifi_network .setWifiNetwork ++
  optClause p.outlets .setOutlets ++
  optClause (p.seating.map Seating.value) .setSeating ++
  optClause p.refreshments .setRefreshments ++
  optClause (p.environment.map (fun es => es.map Environment.value))
    .setEnvironment

/-- The two appends one iteration of the `for day in [...]` loop makes
(start before end, as in the source). -/
def dayClauses (p : PatchParams) (d : DayOfWeek) :
    List (DayOfWeek × Bool × Nat) :=
  (match p.hourStart d with
   | some v => [(d, true, v)]
   | none => []) ++
  (match p.hourEnd d with
   | some v => [(d, false, v)]
   | none => [])

/-- `fields_hours`: the whole loop, day by day. -/
def buildHourClauses (p : PatchParams) : List (DayOfWeek × Bool × Nat) :=
  allDays.flatMap (dayClauses p)

def applyHourClauses (cs : List (DayOfWeek × Bool × Nat)) (h : HoursFields) :
    HoursFields :=
  cs.foldl (fun acc c => acc.set c.1 c.2.1 c.2.2) h

/-- `UPDATE studyspots SET {clauses}, updated_at = NOW() WHERE id = :id`. -/
def updateSpotsTable (ss : List SpotRow) (id : String) (cs : List SpotSet)
    (now : Nat) : List SpotRow :=
  ss.map (fun r =>
    if r.id == id then { applySpotClauses cs r with updated_at := now } else r)

/-- `UPDATE hours SET {clauses} WHERE studyspot_id = :id`. -/
def updateHoursTable (hs : List HoursRow) (id : String)
    (cs : List (DayOfWeek × Bool × Nat)) : List HoursRow :=
  hs.map (fun h =>
    if h.studyspot_id == id then { h with hf := applyHourClauses cs h.hf } else h)

/-- `UPDATE studyspots SET updated_at = NOW() WHERE id = :id` (issued after
an hours update). -/
def touchSpots (ss : List SpotRow) (id : String) (now : Nat) : List SpotRow :=
  ss.map (fun r => if r.id == id then { r with updated_at := now } else r)

/-- `update_studyspot`.  Unlike the other handlers it re-raises
`HTTPException`s (`except HTTPException: raise`), so its 400 and 404 reach
the client unwrapped; only other exceptions (e.g. a geocoder failure while
a supplied `street` is processed) become a 500.  All statements of one
request run in one `session.begin()` transaction, so the 404 of the final
re-select rolls every update back. -/
def update_studyspot (db : DB) (id : String) (p : PatchParams) (geo : GeoFun)
    (now : Nat) : DB × Except HTTPError StudySpotOut :=
  let gres : Except String (Option (Coord × Coord × String)) :=
    match p.street with
    | some s => (geo s "New York" "NY").map some
    | none => .ok none
  match gres with
  | .error msg => (db, .error { status := 500, detail := msg })
  | .ok g =>
      let cs := buildSpotClauses p g
      let hcs := buildHourClauses p
      if cs.isEmpty && hcs.isEmpty then
        (db, .error { status := 400, detail := "No fields to update" })
      else
        let ss1 := if cs.isEmpty then db.studyspots
                   else updateSpotsTable db.studyspots id cs now
        let hs1 := if hcs.isEmpty then db.hours
                   else updateHoursTable db.hours id hcs
        let ss2 := if hcs.isEmpty then ss1 else touchSpots ss1 id now
        let db' : DB := { studyspots := ss2, hours := hs1 }
        match selectSpotJoined db' id with
        | none => (db, .error (notFound id))
        | some (s, h) =>
            match rowToOut s h.hf with
            | none => (db', .error { status := 500, detail := enumErr })
            | some out => (db', .ok out)

/-! ## Async geocoding (`jobs`, `run_geocode_job`,
`post_studyspot_geocode`, `get_job_status`) -/

/-- The four values the `status` field of a job record takes. -/
inductive JobStatus
  | pending
  | running
  | complete
  | failed
deriving DecidableEq, Repr

/-- The `result` dict of a finished job: on completion
`{latitude, longitude, postal_code, message}`, on failure
`{"error": str(e)}`. -/
inductive JobResult
  | success (latitude longitude : Coord) (postal_code : String) (message : String)
  | failure (error : String)
deriving DecidableEq, Repr

/-- One entry of the process-wide `jobs` dict. -/
structure Job where
  status : JobStatus
  result : Option JobResult
deriving DecidableEq, Repr

/-- The whole mutable state the geocode flow touches: the database and the
`jobs` dict (an insertion-ordered association list, like a Python dict). -/
structure AppState where
  db : DB
  jobs : List (String × Job)
deriving DecidableEq, Repr

/-- `jobs.get(job_id)`. -/
def jobsGet (js : List (String × Job)) (k : String) : Option Job :=
  (js.find? (fun kv => kv.1 == k)).map (fun kv => kv.2)

/-- `jobs[job_id] = v` (replaces in place or appends). -/
def jobsPut (js : List (String × Job)) (k : String) (j : Job) :
    List (String × Job) :=
  if (js.find? (fun kv => kv.1 == k)).isSome then
    js.map (fun kv => if kv.1 == k then (k, j) else kv)
  else
    js ++ [(k, j)]

/-- `jobs[job_id]["status"] = v` (the key is present on every call site). -/
def jobsSetStatus (js : List (String × Job)) (k : String) (v : JobStatus) :
    List (String × Job) :=
  js.map (fun kv => if kv.1 == k then (k, { kv.2 with status := v }) else kv)

/-- `jobs[job_id]["result"] = v`. -/
def jobsSetResult (js : List (String × Job)) (k : String) (v : Option JobResult) :
    List (String × Job) :=
  js.map (fun kv => if kv.1 == k then (k, { kv.2 with result := v }) else kv)

/-- `post_studyspot_geocode`: registers the fresh job id as
`{"status": "pending", "result": None}`, schedules `run_geocode_job` as a
background task and answers 202 with the job id at once. -/
def post_studyspot_geocode (st : AppState) (jobId : String) :
    AppState × String :=
  ({ st with jobs := jobsPut st.jobs jobId { status := .pending, result := none } },
   jobId)

/-- The first statement of `run_geocode_job`:
`jobs[job_id]["status"] = "running"` (before the `try` block). -/
def run_geocode_start (st : AppState) (jobId : String) : AppState :=
  { st with jobs := jobsSetStatus st.jobs jobId .running }

/-- The `try`/`except` body of `run_geocode_job`: select the spot's street
address, geocode it, write the coordinates (and postal code) back with a
refreshed `updated_at`, and mark the job complete; any exception (the 404
of a missing spot included) marks the job failed with `str(e)` as the
`error` entry. -/
def run_geocode_rest (st : AppState) (jobId spotId : String) (geo : GeoFun)
    (now : Nat) : AppState :=
  match st.db.studyspots.find? (fun r => r.id == spotId) with
  | none =>
      let js := jobsSetResult (jobsSetStatus st.jobs jobId .failed) jobId
        (some (.failure (httpStr (notFound spotId))))
      { st with jobs := js }
  | some r =>
      match geo r.street r.city r.state with
      | .error msg =>
          let js := jobsSetResult (jobsSetStatus st.jobs jobId .failed) jobId
            (some (.failure msg))
          { st with jobs := js }
      | .ok (la, lo, pc) =>
          -- `UPDATE studyspots SET latitude = :lat, longitude = :lng,
          -- updated_at = NOW(), postal_code = :postal_code WHERE id = :id`
          -- (the `if postal_code is not None` guard always holds: a
          -- successful `get_geocode` binds a string)
          let ss := st.db.studyspots.map (fun x =>
            if x.id == spotId then
              { x with latitude := some la, longitude := some lo,
                       postal_code := pc, updated_at := now }
            else x)
          let js := jobsSetResult (jobsSetStatus st.jobs jobId .complete) jobId
            (some (.success la lo pc "Geocode successful"))
          { db := { studyspots := ss, hours := st.db.hours }, jobs := js }

/-- The whole background task. -/
def run_geocode_job (st : AppState) (jobId spotId : String) (geo : GeoFun)
    (now : Nat) : AppState :=
  run_geocode_rest (run_geocode_start st jobId) jobId spotId geo now

/-- `get_job_status` (`GET /jobs/{job_id}`): a pure read of the jobs dict,
404 \"Job not found\" for an unknown id, otherwise the job's status and
result echoed back. -/
def get_job_status (st : AppState) (jobId : String) :
    AppState × Except HTTPError (String × JobStatus × Option JobResult) :=
  match jobsGet st.jobs jobId with
  | none => (st, .error { status := 404, detail := "Job not found" })
  | some j => (st, .ok (jobId, j.status, j.result))

/-! ## Concrete fixtures used by the witnesses and counterexamples -/

def emptyDB : DB := { studyspots := [], hours := [] }

/-- Open Monday 9:00-18:00, closed the other days. -/
def sampleHours : HoursFields :=
  { mon_start := some 540, mon_end := some 1080
    tue_start := none, tue_end := none, wed_start := none, wed_end := none
    thu_start := none, thu_end := none, fri_start := none, fri_end := none
    sat_start := none, sat_end := none, sun_start := none, sun_end := none }

/-- A valid `StudySpotCreate` payload; note `environment` is not supplied. -/
def samplePayload : StudySpotCreatePayload :=
  { name := "Joe Coffee"
    address :=
      { street := "116th and Broadway", city := "New York", state := "NY"
        postal_code := "10027", latitude := none, longitude := none
        neighborhood := .harlem }
    amenity :=
      { wifi_available := true, wifi_network := some "eduroam"
        outlets := true, seating := .oneToFive, refreshments := none
        environment := none }
    hour := sampleHours }

/-- The stored row `create_studyspot emptyDB samplePayload "s1" "h1" 5`
produces. -/
def sampleSpotRow : SpotRow :=
  { id := "s1", name := "Joe Coffee", street := "116th and Broadway"
    city := "New York", state := "NY", postal_code := "10027"
    latitude := none, longitude := none, neighborhood := "Harlem"
    wifi_available := true, wifi_network := some "eduroam", outlets := true
    seating := "1-5", refreshments := none, environment := []
    created_at := 5, updated_at := 5 }

def sampleHoursRow : HoursRow :=
  { hour_id := "h1", studyspot_id := "s1", hf := sampleHours }

/-- A store holding exactly one study spot. -/
def sampleDB : DB := { studyspots := [sampleSpotRow], hours := [sampleHoursRow] }

/-- The `StudySpotRead` the handlers shape from `sampleSpotRow`. -/
def sampleOut : StudySpotOut :=
  { id := "s1", name := "Joe Coffee"
    address :=
      { street := "116th and Broadway", city := "New York", state := "NY"
        postal_code := "10027", latitude := none, longitude := none
        neighborhood := .harlem }
    amenity :=
      { wifi_available := true, wifi_network := some "eduroam"
        outlets := true, seating := .oneToFive, refreshments := none
        environment := [] }
    hour := sampleHours
    created_at := 5, updated_at := 5 }

/-! ## C1 -/

/-- C1: the claim says a `GET /studyspots` whose filtered result is empty
returns an empty list, not an error.  The code disagrees: with an empty
store and no filters supplied, the page query's empty result set makes
`execute_query` raise its 404 (with the nonsensical id text `None`, since
the list query's params carry no `id`), and the handler's blanket
`except Exception` turns that into a 500. -/
theorem list_empty_result_is_500_not_empty_list :
    list_studyspots emptyDB noFilters .mon 600 1 10 =
      (emptyDB,
       .error { status := 500, detail := "404: Study spot None not found." }) :=
  rfl

/-! ## C2 -/

/-- C2: the claim says every page `>= 1` holds exactly the filtered items
at offsets `(page-1)*page_size ..`, so a page past the end should be
empty.  The code instead errors: with one stored spot (one filtered
match, so `ceil(1/10) = 1` total page), requesting page 2 of size 10
yields an empty result set, which `execute_query` turns into a 404 and
the handler rewraps as a 500. -/
theorem list_page_past_end_is_500 :
    ((joinRows sampleDB).filter (matchesRow noFilters .mon 600)).length = 1 ∧
    pyCeilDiv 1 10 = 1 ∧
    list_studyspots sampleDB noFilters .mon 600 2 10 =
      (sampleDB,
       .error { status := 500, detail := "404: Study spot None not found." }) :=
  ⟨rfl, rfl, rfl⟩

/-! ## C4 -/

/-- C4: a PATCH supplying no field at all is rejected with the 400
"No fields to update" condition before any statement is built, so the
store is returned unchanged, for every database state. -/
theorem update_studyspot_empty_patch_rejected (db : DB) (id : String)
    (geo : GeoFun) (now : Nat) :
    update_studyspot db id emptyPatch geo now =
      (db, .error { status := 400, detail := "No fields to update" }) :=
  rfl

/-! ## C6 -/

/-- C6: the claim says deleting a nonexistent id returns not-found and a
second delete of the same id returns not-found.  The code returns 204 in
both cases: `execute_query` hands the two-statement batch back as the
rowcount list `[0, 0]`, and the Python comparison `spot == 0` of a list
with an integer is always `False`, so the 404 branch is unreachable. -/
theorem delete_nonexistent_returns_204 :
    delete_studyspot emptyDB "s1" = (emptyDB, .ok ()) ∧
    (delete_studyspot sampleDB "s1").2 = .ok () ∧
    (delete_studyspot sampleDB "s1").1 = emptyDB ∧
    delete_studyspot (delete_studyspot sampleDB "s1").1 "s1" =
      (emptyDB, .ok ()) :=
  ⟨rfl, rfl, rfl, rfl⟩

/-! ## C7 -/

/-- C7: the claim says `GET /studyspots/{id}` for a nonexistent id yields
a 404 and only unexpected conditions become 500s.  In the code,
`get_studyspot` has no `except HTTPException: raise` arm (unlike
`update_studyspot`), so the 404 `execute_query` raises is caught by the
blanket `except Exception` and rewrapped as a 500 whose detail is the
`str()` of the 404. -/
theorem get_missing_spot_is_500 :
    get_studyspot emptyDB "nope" none =
      (emptyDB,
       .error { status := 500, detail := "404: Study spot nope not found." }) :=
  rfl

/-! ## C10 -/

/-- C10: `GET /jobs/{job_id}` is total and read-only: it never touches the
jobs map or the entity store, answers 404 "Job not found" for an unknown
job id, and echoes exactly the stored status and result for a known one. -/
theorem get_job_status_total_readonly (st : AppState) (jobId : String) :
    (get_job_status st jobId).1 = st ∧
    (get_job_status st jobId).2 =
      (match jobsGet st.jobs jobId with
       | none => .error { status := 404, detail := "Job not found" }
       | some j => .ok (jobId, j.status, j.result)) := by
  constructor <;> cases h : jobsGet st.jobs jobId <;> simp [get_job_status, h]

/-! ## C9 -/

/-- C9: the ETag `get_studyspot` attaches is `generate_etag` — the MD5 hex
digest (see `md5Hex`) — of the string built from the stored row's id and
update timestamp.  It is therefore a function of the stored row alone:
any two reads of the same spot with no mutation in between answer with
this same value (first conjunct), and a read whose `If-None-Match` header
carries the current value is answered 304 with no body and the store
untouched (second conjunct). -/
theorem etag_deterministic_and_304 (db : DB) (id : String) (s : SpotRow)
    (h : HoursRow) (out : StudySpotOut)
    (hsel : selectSpotJoined db id = some (s, h))
    (hout : rowToOut s h.hf = some out) :
    (get_studyspot db id none).2 =
      .ok (.body (generate_etag (etagSource s)) out) ∧
    get_studyspot db id (some (generate_etag (etagSource s))) =
      (db, .ok (.notModified (generate_etag (etagSource s)))) := by
  constructor
  · simp [get_studyspot, hsel, hout]
  · simp [get_studyspot, hsel]

/-- C9 at a concrete store: the hypotheses of
`etag_deterministic_and_304` discharged at `sampleDB`. -/
theorem etag_deterministic_and_304_witness :
    (get_studyspot sampleDB "s1" none).2 =
      .ok (.body (generate_etag (etagSource sampleSpotRow)) sampleOut) ∧
    get_studyspot sampleDB "s1" (some (generate_etag (etagSource sampleSpotRow))) =
      (sampleDB, .ok (.notModified (generate_etag (etagSource sampleSpotRow)))) :=
  etag_deterministic_and_304 sampleDB "s1" sampleSpotRow sampleHoursRow
    sampleOut rfl rfl

/-! ## Lemmas about `find?` over in-place updates -/

/-- `find?` commutes with a map that does not change which elements the
predicate selects. -/
theorem find?_map_comm {α : Type} (g : α → α) (p : α → Bool)
    (hp : ∀ x, p (g x) = p x) :
    ∀ l : List α, (l.map g).find? p = (l.find? p).map g := by
  intro l
  induction l with
  | nil => rfl
  | cons x xs ih =>
      simp only [List.map_cons, List.find?_cons, hp x]
      cases h : p x
      · simp [ih]
      · simp

/-- Reading back the key just written with `jobs[k] = j`. -/
theorem jobsGet_put (js : List (String × Job)) (k : String) (j : Job) :
    jobsGet (jobsPut js k j) k = some j := by
  unfold jobsPut
  by_cases hmem : (js.find? (fun kv => kv.1 == k)).isSome
  · simp only [hmem, if_true]
    unfold jobsGet
    rw [find?_map_comm (fun kv => if kv.1 == k then (k, j) else kv)
      (fun kv => kv.1 == k) ?_ js]
    · obtain ⟨kv, hkv⟩ := Option.isSome_iff_exists.mp hmem
      have hk := List.find?_some hkv
      simp only at hk
      simp [hkv, hk, beq_iff_eq.mp hk]
    · intro kv
      by_cases hkv : (kv.1 == k) = true
      · simp [hkv]
      · simp [hkv]
  · simp only [hmem, if_false, Bool.false_eq_true]
    unfold jobsGet
    rw [List.find?_append]
    rw [Option.not_isSome_iff_eq_none.mp hmem]
    simp

/-- `jobs[k]["status"] = v` seen through `jobs.get(k)`. -/
theorem jobsGet_setStatus (js : List (String × Job)) (k : String)
    (v : JobStatus) :
    jobsGet (jobsSetStatus js k v) k =
      (jobsGet js k).map (fun j => { j with status := v }) := by
  unfold jobsGet jobsSetStatus
  rw [find?_map_comm (fun kv => if kv.1 == k then (k, { kv.2 with status := v }) else kv)
    (fun kv => kv.1 == k) ?_ js]
  · cases hfind : js.find? (fun kv => kv.1 == k) with
    | none => rfl
    | some kv =>
        have hk := List.find?_some hfind
        simp only at hk
        simp [hk, beq_iff_eq.mp hk]
  · intro kv
    by_cases hkv : (kv.1 == k) = true
    · simp [hkv]
    · simp [hkv]

/-- `jobs[k]["result"] = v` seen through `jobs.get(k)`. -/
theorem jobsGet_setResult (js : List (String × Job)) (k : String)
    (v : Option JobResult) :
    jobsGet (jobsSetResult js k v) k =
      (jobsGet js k).map (fun j => { j with result := v }) := by
  unfold jobsGet jobsSetResult
  rw [find?_map_comm (fun kv => if kv.1 == k then (k, { kv.2 with result := v }) else kv)
    (fun kv => kv.1 == k) ?_ js]
  · cases hfind : js.find? (fun kv => kv.1 == k) with
    | none => rfl
    | some kv =>
        have hk := List.find?_some hfind
        simp only at hk
        simp [hk, beq_iff_eq.mp hk]
  · intro kv
    by_cases hkv : (kv.1 == k) = true
    · simp [hkv]
    · simp [hkv]

/-- Writing job `k` does not disturb the entry of a different key. -/
theorem jobsGet_put_ne (js : List (String × Job)) (k k' : String) (j : Job)
    (hne : k' ≠ k) : jobsGet (jobsPut js k j) k' = jobsGet js k' := by
  unfold jobsPut
  by_cases hmem : (js.find? (fun kv => kv.1 == k)).isSome
  · simp only [hmem, if_true]
    unfold jobsGet
    rw [find?_map_comm (fun kv => if kv.1 == k then (k, j) else kv)
      (fun kv => kv.1 == k') ?_ js]
    · cases hfind : js.find? (fun kv => kv.1 == k') with
      | none => rfl
      | some kv =>
          have hk := List.find?_some hfind
          simp only at hk
          have hne2 : (kv.1 == k) = false := by
            rw [beq_iff_eq.mp hk]
            exact beq_eq_false_iff_ne.mpr hne
          simp [hne2, beq_eq_false_iff_ne.mp hne2]
    · intro kv
      by_cases hkv : (kv.1 == k) = true
      · have hk1 : kv.1 = k := beq_iff_eq.mp hkv
        have e1 : (kv.1 == k') = false := by
          rw [hk1]; exact beq_eq_false_iff_ne.mpr (fun h => hne h.symm)
        have e2 : (k == k') = false := beq_eq_false_iff_ne.mpr (fun h => hne h.symm)
        simp [hkv, e1, e2]
      · simp [hkv]
  · simp only [hmem, if_false, Bool.false_eq_true]
    unfold jobsGet
    rw [List.find?_append]
    have hz : (([(k, j)]).find? (fun kv => kv.1 == k')) = none := by
      simp [List.find?_cons, beq_eq_false_iff_ne.mpr (fun h => hne h.symm)]
    rw [hz]
    cases js.find? (fun kv => kv.1 == k') <;> rfl

/-- `jobs[k]["status"] = v` does not disturb a different key. -/
theorem jobsGet_setStatus_ne (js : List (String × Job)) (k k' : String)
    (v : JobStatus) (hne : k' ≠ k) :
    jobsGet (jobsSetStatus js k v) k' = jobsGet js k' := by
  unfold jobsGet jobsSetStatus
  rw [find?_map_comm (fun kv => if kv.1 == k then (k, { kv.2 with status := v }) else kv)
    (fun kv => kv.1 == k') ?_ js]
  · cases hfind : js.find? (fun kv => kv.1 == k') with
    | none => rfl
    | some kv =>
        have hk := List.find?_some hfind
        simp only at hk
        have hne2 : (kv.1 == k) = false := by
          rw [beq_iff_eq.mp hk]
          exact beq_eq_false_iff_ne.mpr hne
        simp [hne2, beq_eq_false_iff_ne.mp hne2]
  · intro kv
    by_cases hkv : (kv.1 == k) = true
    · have hk1 : kv.1 = k := beq_iff_eq.mp hkv
      have e1 : (kv.1 == k') = false := by
        rw [hk1]; exact beq_eq_false_iff_ne.mpr (fun h => hne h.symm)
      have e2 : (k == k') = false := beq_eq_false_iff_ne.mpr (fun h => hne h.symm)
      simp [hkv, e1, e2]
    · simp [hkv]

/-- `jobs[k]["result"] = v` does not disturb a different key. -/
theorem jobsGet_setResult_ne (js : List (String × Job)) (k k' : String)
    (v : Option JobResult) (hne : k' ≠ k) :
    jobsGet (jobsSetResult js k v) k' = jobsGet js k' := by
  unfold jobsGet jobsSetResult
  rw [find?_map_comm (fun kv => if kv.1 == k then (k, { kv.2 with result := v }) else kv)
    (fun kv => kv.1 == k') ?_ js]
  · cases hfind : js.find? (fun kv => kv.1 == k') with
    | none => rfl
    | some kv =>
        have hk := List.find?_some hfind
        simp only at hk
        have hne2 : (kv.1 == k) = false := by
          rw [beq_iff_eq.mp hk]
          exact beq_eq_false_iff_ne.mpr hne
        simp [hne2, beq_eq_false_iff_ne.mp hne2]
  · intro kv
    by_cases hkv : (kv.1 == k) = true
    · have hk1 : kv.1 = k := beq_iff_eq.mp hkv
      have e1 : (kv.1 == k') = false := by
        rw [hk1]; exact beq_eq_false_iff_ne.mpr (fun h => hne h.symm)
      have e2 : (k == k') = false := beq_eq_false_iff_ne.mpr (fun h => hne h.symm)
      simp [hkv, e1, e2]
    · simp [hkv]

/-! ## C8 -/

/-- C8: the geocode job lifecycle.  A job is registered as `pending` the
moment `POST /studyspots/{id}/geocode` answers with its job id; the
scheduled task first moves it to `running`; the task ends with the job
`complete` or `failed` and never anything else (the select/geocode
outcomes are exhaustive: found-and-geocoded, geocoder error, spot
missing); on completion the resolved coordinates (and postal code) are
written back into the owning spot's row; on failure the exception text is
captured as the job's `error` result; and a run never touches any other
job's entry, so finished jobs keep their terminal state (no code path
writes a job after its run ends; each job id is passed to exactly one
background task, scheduled at creation). -/
theorem geocode_job_lifecycle (st : AppState) (jobId spotId : String)
    (geo : GeoFun) (now : Nat) :
    jobsGet ((post_studyspot_geocode st jobId).1).jobs jobId =
      some { status := .pending, result := none } ∧
    jobsGet (run_geocode_start (post_studyspot_geocode st jobId).1 jobId).jobs
        jobId = some { status := .running, result := none } ∧
    (∀ r la lo pc,
      st.db.studyspots.find? (fun x => x.id == spotId) = some r →
      geo r.street r.city r.state = .ok (la, lo, pc) →
      jobsGet (run_geocode_job (post_studyspot_geocode st jobId).1 jobId
          spotId geo now).jobs jobId =
        some { status := .complete,
               result := some (.success la lo pc "Geocode successful") } ∧
      (run_geocode_job (post_studyspot_geocode st jobId).1 jobId spotId geo
          now).db.studyspots.find? (fun x => x.id == spotId) =
        some { r with latitude := some la, longitude := some lo,
                      postal_code := pc, updated_at := now }) ∧
    (∀ r msg,
      st.db.studyspots.find? (fun x => x.id == spotId) = some r →
      geo r.street r.city r.state = .error msg →
      jobsGet (run_geocode_job (post_studyspot_geocode st jobId).1 jobId
          spotId geo now).jobs jobId =
        some { status := .failed, result := some (.failure msg) }) ∧
    (st.db.studyspots.find? (fun x => x.id == spotId) = none →
      jobsGet (run_geocode_job (post_studyspot_geocode st jobId).1 jobId
          spotId geo now).jobs jobId =
        some { status := .failed,
               result := some (.failure (httpStr (notFound spotId))) }) ∧
    (∀ k, k ≠ jobId →
      jobsGet (run_geocode_job (post_studyspot_geocode st jobId).1 jobId
          spotId geo now).jobs k = jobsGet st.jobs k) := by
  refine ⟨jobsGet_put st.jobs jobId _, ?_, ?_, ?_, ?_, ?_⟩
  · show jobsGet (jobsSetStatus (jobsPut st.jobs jobId _) jobId .running) jobId = _
    rw [jobsGet_setStatus, jobsGet_put]
    rfl
  · intro r la lo pc hfind hgeo
    unfold run_geocode_job run_geocode_rest
    simp only [run_geocode_start, post_studyspot_geocode]
    rw [hfind]
    dsimp only
    rw [hgeo]
    constructor
    · simp only []
      rw [jobsGet_setResult, jobsGet_setStatus, jobsGet_setStatus, jobsGet_put]
      rfl
    · simp only []
      rw [find?_map_comm _ _ ?_ st.db.studyspots, hfind]
      · have hid := List.find?_some hfind
        simp only at hid
        simp [hid, beq_iff_eq.mp hid]
      · intro x
        by_cases hx : (x.id == spotId) = true
        · simp [hx]
        · simp [hx]
  · intro r msg hfind hgeo
    unfold run_geocode_job run_geocode_rest
    simp only [run_geocode_start, post_studyspot_geocode]
    rw [hfind]
    dsimp only
    rw [hgeo]
    dsimp only
    rw [jobsGet_setResult, jobsGet_setStatus, jobsGet_setStatus, jobsGet_put]
    rfl
  · intro hfind
    unfold run_geocode_job run_geocode_rest
    simp only [run_geocode_start, post_studyspot_geocode]
    rw [hfind]
    dsimp only
    rw [jobsGet_setResult, jobsGet_setStatus, jobsGet_setStatus, jobsGet_put]
    rfl
  · intro k hk
    unfold run_geocode_job run_geocode_rest
    simp only [run_geocode_start, post_studyspot_geocode]
    cases hfind : st.db.studyspots.find? (fun x => x.id == spotId) with
    | none =>
        simp only []
        rw [jobsGet_setResult_ne _ _ _ _ hk, jobsGet_setStatus_ne _ _ _ _ hk,
          jobsGet_setStatus_ne _ _ _ _ hk, jobsGet_put_ne _ _ _ _ hk]
    | some r =>
        dsimp only
        cases hgeo : geo r.street r.city r.state with
        | error msg =>
            dsimp only
            rw [jobsGet_setResult_ne _ _ _ _ hk, jobsGet_setStatus_ne _ _ _ _ hk,
              jobsGet_setStatus_ne _ _ _ _ hk, jobsGet_put_ne _ _ _ _ hk]
        | ok glr =>
            obtain ⟨la, lo, pc⟩ := glr
            dsimp only
            rw [jobsGet_setResult_ne _ _ _ _ hk, jobsGet_setStatus_ne _ _ _ _ hk,
              jobsGet_setStatus_ne _ _ _ _ hk, jobsGet_put_ne _ _ _ _ hk]

/-- Stand-in geocoder used by concrete scenarios. -/
def sampleGeo : GeoFun := fun _ _ _ => .ok (7, -8, "10027")

/-- C8 exercised end to end on a concrete store: the success path's
hypotheses discharged at `sampleDB`. -/
theorem geocode_job_lifecycle_witness :
    jobsGet (run_geocode_job (post_studyspot_geocode ⟨sampleDB, []⟩ "j1").1 "j1"
        "s1" sampleGeo 9).jobs "j1" =
      some { status := .complete,
             result := some (.success 7 (-8) "10027" "Geocode successful") } :=
  ((geocode_job_lifecycle ⟨sampleDB, []⟩ "j1" "s1" sampleGeo 9).2.2.1
    sampleSpotRow 7 (-8) "10027" rfl rfl).1


/-! ## C5 -/

theorem env_mapM_roundtrip (es : List Environment) :
    (es.map Environment.value).mapM Environment.ofValue = some es := by
  induction es with
  | nil => rfl
  | cons e es ih =>
      rw [List.map_cons, List.mapM_cons, environment_ofValue_value, ih]
      rfl

/-- The field values a freshly created spot reads back with: exactly the
payload's, except that an unsupplied (`None`) environment list has become
the empty list. -/
def expectedOut (p : StudySpotCreatePayload) (spotId : String) (now : Nat) :
    StudySpotOut :=
  { id := spotId, name := p.name
    address :=
      { street := p.address.street, city := p.address.city
        state := p.address.state, postal_code := p.address.postal_code
        latitude := p.address.latitude, longitude := p.address.longitude
        neighborhood := p.address.neighborhood }
    amenity :=
      { wifi_available := p.amenity.wifi_available
        wifi_network := p.amenity.wifi_network
        outlets := p.amenity.outlets
        seating := p.amenity.seating
        refreshments := p.amenity.refreshments
        environment := p.amenity.environment.getD [] }
    hour := p.hour
    created_at := now, updated_at := now }

/-- The joined single-spot select finds a freshly appended pair when no
earlier row collides with it. -/
theorem selectSpotJoined_append (db : DB) (row : SpotRow) (hrow : HoursRow)
    (idv : String) (hi : row.id = idv)
    (hfs : db.studyspots.any (fun r => r.id == idv) = false)
    (hfh : db.hours.any (fun h => h.studyspot_id == idv) = false)
    (hm : hrow.studyspot_id = idv) :
    selectSpotJoined ⟨db.studyspots ++ [row], db.hours ++ [hrow]⟩ idv =
      some (row, hrow) := by
  subst hi
  unfold selectSpotJoined joinRows
  rw [List.flatMap_append, List.find?_append]
  have h1 : (db.studyspots.flatMap
      (fun s => (((db.hours ++ [hrow]).filter
        (fun h => h.studyspot_id == s.id)).map (fun h => (s, h))))).find?
      (fun rh => rh.1.id == row.id) = none := by
    rw [List.find?_eq_none]
    intro x hx
    rw [List.mem_flatMap] at hx
    obtain ⟨s, hs, hx⟩ := hx
    rw [List.mem_map] at hx
    obtain ⟨h, _, rfl⟩ := hx
    have := List.any_eq_false.mp hfs s hs
    simpa using this
  rw [h1]
  have h2 : ([row].flatMap
      (fun s => (((db.hours ++ [hrow]).filter
        (fun h => h.studyspot_id == s.id)).map (fun h => (s, h))))) =
      [(row, hrow)] := by
    simp only [List.flatMap_cons, List.flatMap_nil, List.append_nil]
    rw [List.filter_append]
    have hnil : db.hours.filter (fun h => h.studyspot_id == row.id) = [] := by
      rw [List.filter_eq_nil_iff]
      intro a ha
      simpa using List.any_eq_false.mp hfh a ha
    rw [hnil]
    simp [List.filter, hm]
  rw [h2]
  simp

/-- Reading the created row back converts every stored enum string to its
enum again. -/
theorem rowToOut_created (p : StudySpotCreatePayload) (spotId : String)
    (now : Nat) :
    rowToOut (createdRow p spotId now) p.hour =
      some (expectedOut p spotId now) := by
  unfold rowToOut createdRow
  rw [neighborhood_ofValue_value, seating_ofValue_value, env_mapM_roundtrip]
  rfl

/-- C5 (amended): `POST /studyspots` followed by `GET /studyspots/{id}`
with the returned id answers with exactly the created field values — name,
every address field, every amenity field, and all seven days of hours —
except that an environment list the payload did not supply (`None`) reads
back as the empty list, because creation stores
`[env.value for env in (environment or [])]`.  The hypotheses say the
generated ids are fresh, which the database's primary keys otherwise
enforce. -/
theorem create_then_get_roundtrip (db : DB) (p : StudySpotCreatePayload)
    (spotId hourId : String) (now : Nat)
    (hfs : db.studyspots.any (fun r => r.id == spotId) = false)
    (hfi : db.hours.any (fun h => h.hour_id == hourId) = false)
    (hfh : db.hours.any (fun h => h.studyspot_id == spotId) = false) :
    (create_studyspot db p spotId hourId now).2 =
      .ok (expectedOut p spotId now) ∧
    (get_studyspot (create_studyspot db p spotId hourId now).1 spotId none).2 =
      .ok (.body (generate_etag (etagSource (createdRow p spotId now)))
        (expectedOut p spotId now)) := by
  have hsel := selectSpotJoined_append db (createdRow p spotId now)
    (createdHoursRow p spotId hourId) spotId rfl hfs hfh rfl
  have hguard : ((db.studyspots.any (fun r => r.id == spotId)) ||
      (db.hours.any (fun h => h.hour_id == hourId))) = false := by
    rw [hfs, hfi]
    rfl
  have hcreate1 : (create_studyspot db p spotId hourId now).1 =
      { studyspots := db.studyspots ++ [createdRow p spotId now]
        hours := db.hours ++ [createdHoursRow p spotId hourId] } := by
    unfold create_studyspot
    rw [hguard]
    dsimp only
    rw [hsel]
    dsimp only [createdHoursRow]
    rw [rowToOut_created]
    rfl
  constructor
  · unfold create_studyspot
    rw [hguard]
    dsimp only
    rw [hsel]
    dsimp only [createdHoursRow]
    rw [rowToOut_created]
    rfl
  · unfold get_studyspot
    rw [hcreate1, hsel]
    dsimp only [createdHoursRow]
    rw [rowToOut_created]
    rfl

/-- C5's witness: the round-trip hypotheses discharged on the empty store
with a concrete payload. -/
theorem create_then_get_roundtrip_witness :
    (create_studyspot emptyDB samplePayload "s1" "h1" 5).2 =
      .ok (expectedOut samplePayload "s1" 5) ∧
    (get_studyspot (create_studyspot emptyDB samplePayload "s1" "h1" 5).1
        "s1" none).2 =
      .ok (.body (generate_etag (etagSource (createdRow samplePayload "s1" 5)))
        (expectedOut samplePayload "s1" 5)) :=
  create_then_get_roundtrip emptyDB samplePayload "s1" "h1" 5 rfl rfl rfl

/-- C5's counterexample to the claim as stated: `samplePayload` supplies no
environment list (`None`), yet both the create response and the subsequent
get return `environment = []` — not the created `None` — so the fetched
field values are not exactly those that were created. -/
theorem create_env_none_reads_back_empty :
    samplePayload.amenity.environment = none ∧
    (create_studyspot emptyDB samplePayload "s1" "h1" 5).2 = .ok sampleOut ∧
    sampleOut.amenity.environment = [] ∧
    (get_studyspot (create_studyspot emptyDB samplePayload "s1" "h1" 5).1
        "s1" none).2 =
      .ok (.body (generate_etag (etagSource sampleSpotRow)) sampleOut) :=
  ⟨rfl, rfl, rfl, rfl⟩


/-! ## C3 -/

/-- The sparse merge the spec describes for a PATCH that does not supply
`street`: each supplied field overwrites its column, every unsupplied
field keeps its stored value, and `updated_at` is refreshed. -/
def mergeSpotRow (p : PatchParams) (r : SpotRow) (now : Nat) : SpotRow :=
  { r with
    name := p.name.getD r.name
    city := p.city.getD r.city
    neighborhood := (p.neighborhood.map Neighborhood.value).getD r.neighborhood
    wifi_available := p.wifi_available.getD r.wifi_available
    wifi_network :=
      match p.wifi_network with
      | some v => some v
      | none => r.wifi_network
    outlets := p.outlets.getD r.outlets
    seating := (p.seating.map Seating.value).getD r.seating
    refreshments :=
      match p.refreshments with
      | some v => some v
      | none => r.refreshments
    environment :=
      (p.environment.map (fun es => es.map Environment.value)).getD r.environment
    updated_at := now }

theorem applySpotClauses_append (xs ys : List SpotSet) (r : SpotRow) :
    applySpotClauses (xs ++ ys) r = applySpotClauses ys (applySpotClauses xs r) := by
  unfold applySpotClauses
  rw [List.foldl_append]

theorem applyClauses_name (o : Option String) (r : SpotRow) :
    applySpotClauses (optClause o .setName) r = { r with name := o.getD r.name } := by
  cases o <;> rfl

theorem applyClauses_city (o : Option String) (r : SpotRow) :
    applySpotClauses (optClause o .setCity) r = { r with city := o.getD r.city } := by
  cases o <;> rfl

theorem applyClauses_neighborhood (o : Option String) (r : SpotRow) :
    applySpotClauses (optClause o .setNeighborhood) r =
      { r with neighborhood := o.getD r.neighborhood } := by
  cases o <;> rfl

theorem applyClauses_wifi_available (o : Option Bool) (r : SpotRow) :
    applySpotClauses (optClause o .setWifiAvailable) r =
      { r with wifi_available := o.getD r.wifi_available } := by
  cases o <;> rfl

theorem applyClauses_wifi_network (o : Option String) (r : SpotRow) :
    applySpotClauses (optClause o .setWifiNetwork) r =
      { r with wifi_network :=
          match o with
          | some v => some v
          | none => r.wifi_network } := by
  cases o <;> rfl

theorem applyClauses_outlets (o : Option Bool) (r : SpotRow) :
    applySpotClauses (optClause o .setOutlets) r =
      { r with outlets := o.getD r.outlets } := by
  cases o <;> rfl

theorem applyClauses_seating (o : Option String) (r : SpotRow) :
    applySpotClauses (optClause o .setSeating) r =
      { r with seating := o.getD r.seating } := by
  cases o <;> rfl

theorem applyClauses_refreshments (o : Option String) (r : SpotRow) :
    applySpotClauses (optClause o .setRefreshments) r =
      { r with refreshments :=
          match o with
          | some v => some v
          | none => r.refreshments } := by
  cases o <;> rfl

theorem applyClauses_environment (o : Option (List String)) (r : SpotRow) :
    applySpotClauses (optClause o .setEnvironment) r =
      { r with environment := o.getD r.environment } := by
  cases o <;> rfl

/-- Applying the SET clauses a street-less PATCH builds, then refreshing
`updated_at`, is exactly the sparse merge. -/
theorem applySpot_merge (p : PatchParams) (r : SpotRow) (now : Nat)
    (hstreet : p.street = none) :
    { applySpotClauses (buildSpotClauses p none) r with updated_at := now } =
      mergeSpotRow p r now := by
  unfold buildSpotClauses
  rw [hstreet]
  dsimp only
  simp only [List.nil_append, applySpotClauses_append, applyClauses_name,
    applyClauses_city, applyClauses_neighborhood, applyClauses_wifi_available,
    applyClauses_wifi_network, applyClauses_outlets, applyClauses_seating,
    applyClauses_refreshments, applyClauses_environment]
  rfl


theorem applyHourClauses_append (xs ys : List (DayOfWeek × Bool × Nat))
    (hf : HoursFields) :
    applyHourClauses (xs ++ ys) hf =
      applyHourClauses ys (applyHourClauses xs hf) := by
  unfold applyHourClauses
  rw [List.foldl_append]

/-- The effect of one day's loop iteration on an arbitrary column read. -/
theorem get_applyDayClauses (p : PatchParams) (d' : DayOfWeek)
    (hf : HoursFields) (d : DayOfWeek) (b : Bool) :
    (applyHourClauses (dayClauses p d') hf).get d b =
      if d == d' then
        (match (if b then p.hourStart d' else p.hourEnd d') with
         | some v => some v
         | none => hf.get d b)
      else hf.get d b := by
  by_cases hd : d = d'
  · subst hd
    cases hs : p.hourStart d <;> cases he : p.hourEnd d <;> cases b <;>
      simp [dayClauses, applyHourClauses, hs, he, HoursFields.get_set]
  · have hbd : (d == d') = false := beq_eq_false_iff_ne.mpr hd
    cases hs : p.hourStart d' <;> cases he : p.hourEnd d' <;> cases b <;>
      simp [dayClauses, applyHourClauses, hs, he, HoursFields.get_set, hbd]

/-- Applying the whole hours SET-clause list realizes the sparse merge,
column by column. -/
theorem applyHour_merge (p : PatchParams) (hf : HoursFields) (d : DayOfWeek)
    (b : Bool) :
    (applyHourClauses (buildHourClauses p) hf).get d b =
      match (if b then p.hourStart d else p.hourEnd d) with
      | some v => some v
      | none => hf.get d b := by
  unfold buildHourClauses allDays
  simp only [List.flatMap_cons, List.flatMap_nil, List.append_nil,
    applyHourClauses_append, get_applyDayClauses]
  cases d <;> cases b <;> simp [PatchParams.hourStart, PatchParams.hourEnd]

theorem optClause_nil {α : Type} (o : Option α) (f : α → SpotSet)
    (h : optClause o f = []) : o = none := by
  cases o with
  | none => rfl
  | some v => simp [optClause] at h

theorem dayClauses_nil (p : PatchParams) (d : DayOfWeek)
    (h : dayClauses p d = []) :
    p.hourStart d = none ∧ p.hourEnd d = none := by
  cases hs : p.hourStart d <;> cases he : p.hourEnd d <;>
    simp [dayClauses, hs, he] at h ⊢

theorem buildHour_nil_none (p : PatchParams) (h : buildHourClauses p = [])
    (d : DayOfWeek) : p.hourStart d = none ∧ p.hourEnd d = none := by
  unfold buildHourClauses allDays at h
  simp only [List.flatMap_cons, List.flatMap_nil, List.append_nil,
    List.append_eq_nil] at h
  obtain ⟨h1, h2, h3, h4, h5, h6, h7⟩ := h
  cases d
  · exact dayClauses_nil p _ h1
  · exact dayClauses_nil p _ h2
  · exact dayClauses_nil p _ h3
  · exact dayClauses_nil p _ h4
  · exact dayClauses_nil p _ h5
  · exact dayClauses_nil p _ h6
  · exact dayClauses_nil p _ h7

/-- An empty SET-clause list means no spot parameter was supplied, so the
sparse merge only refreshes the timestamp. -/
theorem buildSpot_nil_merge (p : PatchParams) (r : SpotRow) (now : Nat)
    (hstreet : p.street = none) (hnil : buildSpotClauses p none = []) :
    mergeSpotRow p r now = { r with updated_at := now } := by
  unfold buildSpotClauses at hnil
  rw [hstreet] at hnil
  simp only [List.append_eq_nil] at hnil
  obtain ⟨⟨⟨⟨⟨⟨⟨⟨⟨e1, -⟩, e2⟩, e3⟩, e4⟩, e5⟩, e6⟩, e7⟩, e8⟩, e9⟩ := hnil
  simp only [mergeSpotRow, optClause_nil _ _ e1, optClause_nil _ _ e2,
    optClause_nil _ _ e3, optClause_nil _ _ e4, optClause_nil _ _ e5,
    optClause_nil _ _ e6, optClause_nil _ _ e7, optClause_nil _ _ e8,
    optClause_nil _ _ e9, Option.getD_none]


theorem applySpotSet_id (x : SpotRow) (c : SpotSet) :
    (applySpotSet x c).id = x.id := by
  cases c <;> rfl

theorem applySpotClauses_id (cs : List SpotSet) :
    ∀ x : SpotRow, (applySpotClauses cs x).id = x.id := by
  induction cs with
  | nil => intro x; rfl
  | cons c cs ih =>
      intro x
      rw [show applySpotClauses (c :: cs) x =
        applySpotClauses cs (applySpotSet x c) from rfl, ih, applySpotSet_id]

/-- `UPDATE studyspots ... WHERE id = :id` seen through the single-row
lookup: the matching row comes back with the SET clauses applied and the
timestamp refreshed. -/
theorem find?_updateSpotsTable (ss : List SpotRow) (id : String)
    (cs : List SpotSet) (now : Nat) (r : SpotRow)
    (hfind : ss.find? (fun x => x.id == id) = some r) :
    (updateSpotsTable ss id cs now).find? (fun x => x.id == id) =
      some { applySpotClauses cs r with updated_at := now } := by
  unfold updateSpotsTable
  rw [find?_map_comm _ _ ?_ ss]
  · rw [hfind]
    have hr := List.find?_some hfind
    simp only at hr
    simp [hr, beq_iff_eq.mp hr]
  · intro x
    by_cases hx : (x.id == id) = true
    · simp [hx, applySpotClauses_id]
    · simp [hx]

/-- The follow-up `UPDATE studyspots SET updated_at = NOW()` likewise. -/
theorem find?_touchSpots (ss : List SpotRow) (id : String) (now : Nat)
    (r : SpotRow) (hfind : ss.find? (fun x => x.id == id) = some r) :
    (touchSpots ss id now).find? (fun x => x.id == id) =
      some { r with updated_at := now } := by
  unfold touchSpots
  rw [find?_map_comm _ _ ?_ ss]
  · rw [hfind]
    have hr := List.find?_some hfind
    simp only at hr
    simp [hr, beq_iff_eq.mp hr]
  · intro x
    by_cases hx : (x.id == id) = true
    · simp [hx]
    · simp [hx]

/-- `UPDATE hours ... WHERE studyspot_id = :id` seen through the lookup. -/
theorem find?_updateHoursTable (hs : List HoursRow) (id : String)
    (cs : List (DayOfWeek × Bool × Nat)) (h0 : HoursRow)
    (hfind : hs.find? (fun h => h.studyspot_id == id) = some h0) :
    (updateHoursTable hs id cs).find? (fun h => h.studyspot_id == id) =
      some { h0 with hf := applyHourClauses cs h0.hf } := by
  unfold updateHoursTable
  rw [find?_map_comm _ _ ?_ hs]
  · rw [hfind]
    have hr := List.find?_some hfind
    simp only at hr
    simp [hr, beq_iff_eq.mp hr]
  · intro x
    by_cases hx : (x.studyspot_id == id) = true
    · simp [hx]
    · simp [hx]

theorem find?_filter_cons {α : Type} (q : α → Bool) (l : List α) (a : α)
    (h : l.find? q = some a) : ∃ t, l.filter q = a :: t := by
  induction l with
  | nil => simp at h
  | cons x xs ih =>
      cases hq : q x
      · rw [List.find?_cons_of_neg _ (by simp [hq])] at h
        obtain ⟨t, ht⟩ := ih h
        exact ⟨t, by rw [List.filter_cons_of_neg (by simp [hq]), ht]⟩
      · rw [List.find?_cons_of_pos _ hq] at h
        injection h with h
        subst h
        exact ⟨xs.filter q, by rw [List.filter_cons_of_pos hq]⟩

/-- When both single-row lookups hit, the joined single-spot select
returns exactly their pair. -/
theorem selectSpotJoined_of_find (db : DB) (id : String) (r : SpotRow)
    (hrw : HoursRow)
    (hfind : db.studyspots.find? (fun x => x.id == id) = some r)
    (hfindH : db.hours.find? (fun h => h.studyspot_id == id) = some hrw) :
    selectSpotJoined db id = some (r, hrw) := by
  obtain ⟨ss, hs⟩ := db
  unfold selectSpotJoined joinRows
  dsimp only at hfind hfindH ⊢
  induction ss with
  | nil => simp at hfind
  | cons s ss' ih =>
      rw [List.flatMap_cons, List.find?_append]
      cases hq : (s.id == id)
      · have hnone : ((hs.filter (fun h => h.studyspot_id == s.id)).map
            (fun h => (s, h))).find? (fun rh => rh.1.id == id) = none := by
          rw [List.find?_eq_none]
          intro x hx
          rw [List.mem_map] at hx
          obtain ⟨h0, -, rfl⟩ := hx
          simp [hq]
        rw [List.find?_cons_of_neg _ (by simp [hq])] at hfind
        rw [hnone, ih hfind]
        rfl
      · have hq2 : (fun x : SpotRow => x.id == id) s = true := hq
        rw [@List.find?_cons_of_pos SpotRow (fun x => x.id == id) s ss' hq2] at hfind
        injection hfind with hfind
        subst hfind
        have hsid : s.id = id := beq_iff_eq.mp hq
        have hfindH2 : hs.find? (fun h => h.studyspot_id == s.id) = some hrw := by
          simp only [hsid]
          exact hfindH
        obtain ⟨t, ht⟩ := find?_filter_cons _ _ _ hfindH2
        have hq3 : (fun rh : SpotRow × HoursRow => rh.1.id == id) (s, hrw) = true := hq
        rw [ht, List.map_cons,
          @List.find?_cons_of_pos (SpotRow × HoursRow) (fun rh => rh.1.id == id)
            (s, hrw) _ hq3]
        rfl


/-- C3 (amended): a PATCH that does not supply `street` mutates, on the
row it addresses, exactly the supplied fields — each one overwritten with
the supplied value, every other column (identifier and creation timestamp
included) kept — and refreshes `updated_at`; the hours columns likewise
keep every day/column pair the request did not supply.  (A PATCH that does
supply `street` additionally overwrites latitude, longitude and
postal_code with geocoder output; see the counterexample.) -/
theorem patch_no_street_frame (db : DB) (id : String) (p : PatchParams)
    (geo : GeoFun) (now : Nat) (r : SpotRow) (hrw : HoursRow)
    (hstreet : p.street = none)
    (hfields : ((buildSpotClauses p none).isEmpty &&
      (buildHourClauses p).isEmpty) = false)
    (hfind : db.studyspots.find? (fun x => x.id == id) = some r)
    (hfindH : db.hours.find? (fun h => h.studyspot_id == id) = some hrw) :
    ((update_studyspot db id p geo now).1.studyspots.find?
        (fun x => x.id == id) = some (mergeSpotRow p r now)) ∧
    (∃ h', (update_studyspot db id p geo now).1.hours.find?
          (fun h => h.studyspot_id == id) = some h' ∧
        h'.hour_id = hrw.hour_id ∧ h'.studyspot_id = hrw.studyspot_id ∧
        ∀ d b, h'.hf.get d b =
          match (if b then p.hourStart d else p.hourEnd d) with
          | some v => some v
          | none => hrw.hf.get d b) ∧
    (mergeSpotRow p r now).updated_at = now ∧
    (mergeSpotRow p r now).created_at = r.created_at := by
  by_cases hcse : (buildSpotClauses p none).isEmpty = true
  · -- no studyspots SET clause: only the hours update and the timestamp touch
    have hcsnil : buildSpotClauses p none = [] := List.isEmpty_iff.mp hcse
    have hhne : (buildHourClauses p).isEmpty = false := by
      have h2 := hfields
      rw [hcse] at h2
      simpa using h2
    have hfind2 := find?_touchSpots db.studyspots id now r hfind
    have hfindH2 := find?_updateHoursTable db.hours id (buildHourClauses p)
      hrw hfindH
    have hsel := selectSpotJoined_of_find
      ⟨touchSpots db.studyspots id now,
       updateHoursTable db.hours id (buildHourClauses p)⟩ id _ _ hfind2 hfindH2
    have hstate : (update_studyspot db id p geo now).1 =
        ⟨touchSpots db.studyspots id now,
         updateHoursTable db.hours id (buildHourClauses p)⟩ := by
      unfold update_studyspot
      rw [hstreet]
      dsimp only
      rw [hfields]
      rw [if_neg Bool.false_ne_true]
      simp only [hcse, hhne, Bool.false_eq_true, if_false, if_true]
      rw [hsel]
      dsimp only
      cases rowToOut { r with updated_at := now }
        ({ hrw with hf := applyHourClauses (buildHourClauses p) hrw.hf }).hf <;>
        rfl
    refine ⟨?_, ?_, rfl, rfl⟩
    · rw [hstate]
      dsimp only
      rw [hfind2, buildSpot_nil_merge p r now hstreet hcsnil]
    · refine ⟨{ hrw with hf := applyHourClauses (buildHourClauses p) hrw.hf },
        ?_, rfl, rfl, ?_⟩
      · rw [hstate]
        dsimp only
        exact hfindH2
      · intro d b
        exact applyHour_merge p hrw.hf d b
  · have hcsne : (buildSpotClauses p none).isEmpty = false :=
      Bool.not_eq_true _ ▸ eq_false_of_ne_true hcse
    by_cases hhce : (buildHourClauses p).isEmpty = true
    · -- only studyspots SET clauses
      have hhnil : buildHourClauses p = [] := List.isEmpty_iff.mp hhce
      have hfind2 := find?_updateSpotsTable db.studyspots id
        (buildSpotClauses p none) now r hfind
      have hsel := selectSpotJoined_of_find
        ⟨updateSpotsTable db.studyspots id (buildSpotClauses p none) now,
         db.hours⟩ id _ _ hfind2 hfindH
      have hstate : (update_studyspot db id p geo now).1 =
          ⟨updateSpotsTable db.studyspots id (buildSpotClauses p none) now,
           db.hours⟩ := by
        unfold update_studyspot
        rw [hstreet]
        dsimp only
        rw [hfields]
        rw [if_neg Bool.false_ne_true]
        simp only [hcsne, hhce, Bool.false_eq_true, if_false, if_true]
        rw [hsel]
        dsimp only
        cases rowToOut
          { applySpotClauses (buildSpotClauses p none) r with updated_at := now }
          hrw.hf <;> rfl
      refine ⟨?_, ?_, rfl, rfl⟩
      · rw [hstate]
        dsimp only
        rw [hfind2, applySpot_merge p r now hstreet]
      · refine ⟨hrw, ?_, rfl, rfl, ?_⟩
        · rw [hstate]
          dsimp only
          exact hfindH
        · intro d b
          obtain ⟨hs0, he0⟩ := buildHour_nil_none p hhnil d
          cases b <;> simp [hs0, he0]
    · -- both tables updated
      have hhne : (buildHourClauses p).isEmpty = false :=
        Bool.not_eq_true _ ▸ eq_false_of_ne_true hhce
      have hfindA := find?_updateSpotsTable db.studyspots id
        (buildSpotClauses p none) now r hfind
      have hfindB := find?_touchSpots
        (updateSpotsTable db.studyspots id (buildSpotClauses p none) now) id
        now _ hfindA
      have hfindH2 := find?_updateHoursTable db.hours id (buildHourClauses p)
        hrw hfindH
      have hsel := selectSpotJoined_of_find
        ⟨touchSpots
          (updateSpotsTable db.studyspots id (buildSpotClauses p none) now)
          id now,
         updateHoursTable db.hours id (buildHourClauses p)⟩ id _ _ hfindB
        hfindH2
      have hstate : (update_studyspot db id p geo now).1 =
          ⟨touchSpots
            (updateSpotsTable db.studyspots id (buildSpotClauses p none) now)
            id now,
           updateHoursTable db.hours id (buildHourClauses p)⟩ := by
        unfold update_studyspot
        rw [hstreet]
        dsimp only
        rw [hfields]
        rw [if_neg Bool.false_ne_true]
        simp only [hcsne, hhne, Bool.false_eq_true, if_false, if_true]
        rw [hsel]
        dsimp only
        cases rowToOut
          { { applySpotClauses (buildSpotClauses p none) r with
              updated_at := now } with updated_at := now }
          ({ hrw with hf := applyHourClauses (buildHourClauses p) hrw.hf }).hf <;>
          rfl
      refine ⟨?_, ?_, rfl, rfl⟩
      · rw [hstate]
        dsimp only
        rw [hfindB]
        dsimp only
        rw [applySpot_merge p r now hstreet]
      · refine ⟨{ hrw with hf := applyHourClauses (buildHourClauses p) hrw.hf },
          ?_, rfl, rfl, ?_⟩
        · rw [hstate]
          dsimp only
          exact hfindH2
        · intro d b
          exact applyHour_merge p hrw.hf d b

/-- The number of fields a PATCH request supplies. -/
def PatchParams.suppliedCount (p : PatchParams) : Nat :=
  (if p.name.isSome then 1 else 0) + (if p.street.isSome then 1 else 0) +
  (if p.city.isSome then 1 else 0) + (if p.neighborhood.isSome then 1 else 0) +
  (if p.wifi_available.isSome then 1 else 0) +
  (if p.wifi_network.isSome then 1 else 0) +
  (if p.outlets.isSome then 1 else 0) + (if p.seating.isSome then 1 else 0) +
  (if p.refreshments.isSome then 1 else 0) +
  (if p.environment.isSome then 1 else 0) +
  (if p.mon_start.isSome then 1 else 0) + (if p.mon_end.isSome then 1 else 0) +
  (if p.tue_start.isSome then 1 else 0) + (if p.tue_end.isSome then 1 else 0) +
  (if p.wed_start.isSome then 1 else 0) + (if p.wed_end.isSome then 1 else 0) +
  (if p.thu_start.isSome then 1 else 0) + (if p.thu_end.isSome then 1 else 0) +
  (if p.fri_start.isSome then 1 else 0) + (if p.fri_end.isSome then 1 else 0) +
  (if p.sat_start.isSome then 1 else 0) + (if p.sat_end.isSome then 1 else 0) +
  (if p.sun_start.isSome then 1 else 0) + (if p.sun_end.isSome then 1 else 0)

/-- A geocoder result whose postal code differs from the stored one. -/
def geo10001 : GeoFun := fun _ _ _ => .ok (7, -8, "10001")

/-- C3's counterexample to the claim as stated: a PATCH supplying exactly
one field, `street`, also changes the stored latitude, longitude and
postal code, because a supplied street triggers an inline geocoding call
whose results are added to the SET clause. -/
theorem patch_street_updates_more_than_street :
    PatchParams.suppliedCount
      { emptyPatch with street := some "1030 Amsterdam Ave" } = 1 ∧
    sampleDB.studyspots.map
      (fun x => (x.latitude, x.longitude, x.postal_code)) =
      [(none, none, "10027")] ∧
    (update_studyspot sampleDB "s1"
        { emptyPatch with street := some "1030 Amsterdam Ave" }
        geo10001 9).1.studyspots.map
      (fun x => (x.latitude, x.longitude, x.postal_code)) =
      [(some 7, some (-8), "10001")] :=
  ⟨rfl, rfl, rfl⟩

/-- A PATCH supplying exactly the `city` field. -/
def cityPatch : PatchParams := { emptyPatch with city := some "Brooklyn" }

/-- C3's witness: the frame theorem's hypotheses discharged at `sampleDB`
for a PATCH supplying exactly one field. -/
theorem patch_no_street_frame_witness :
    ((update_studyspot sampleDB "s1" cityPatch sampleGeo 9).1.studyspots.find?
        (fun x => x.id == "s1") = some (mergeSpotRow cityPatch sampleSpotRow 9)) ∧
    (∃ h', (update_studyspot sampleDB "s1" cityPatch sampleGeo 9).1.hours.find?
          (fun h => h.studyspot_id == "s1") = some h' ∧
        h'.hour_id = sampleHoursRow.hour_id ∧
        h'.studyspot_id = sampleHoursRow.studyspot_id ∧
        ∀ d b, h'.hf.get d b =
          match (if b then cityPatch.hourStart d else cityPatch.hourEnd d) with
          | some v => some v
          | none => sampleHoursRow.hf.get d b) ∧
    (mergeSpotRow cityPatch sampleSpotRow 9).updated_at = 9 ∧
    (mergeSpotRow cityPatch sampleSpotRow 9).created_at =
      sampleSpotRow.created_at :=
  patch_no_street_frame sampleDB "s1" cityPatch sampleGeo 9 sampleSpotRow
    sampleHoursRow rfl rfl rfl rfl


/-! ## Supporting theorems: the query-builder contract on success paths -/

/-- With no filter supplied the WHERE predicate is just `1=1`: no clause
is appended and every joined row matches. -/
theorem matchesRow_noFilters (cd : DayOfWeek) (ct : Nat)
    (rh : SpotRow × HoursRow) :
    buildClauses noFilters cd ct = [] ∧ matchesRow noFilters cd ct rh = true :=
  ⟨rfl, rfl⟩

theorem all_nameBlock (o : Option String) (rh : SpotRow × HoursRow) :
    ((match o with
      | some t => if t.isEmpty then [] else [FilterClause.nameLike (containsPattern t)]
      | none => []).all (fun c => c.eval rh)) = true ↔
      ∀ t, o = some t → t.isEmpty = false →
        sqlLike (containsPattern t) rh.1.name = true := by
  cases o with
  | none => simp
  | some t => cases h : t.isEmpty <;> simp [h, FilterClause.eval]

theorem all_neighborhoodBlock (o : Option Neighborhood)
    (rh : SpotRow × HoursRow) :
    ((match o with
      | some nb => [FilterClause.neighborhoodEq nb.value]
      | none => []).all (fun c => c.eval rh)) = true ↔
      ∀ nb, o = some nb → rh.1.neighborhood = nb.value := by
  cases o <;> simp [FilterClause.eval]

theorem all_wifiBlock (o : Option Bool) (rh : SpotRow × HoursRow) :
    ((match o with
      | some b => [FilterClause.wifiEq b]
      | none => []).all (fun c => c.eval rh)) = true ↔
      ∀ b, o = some b → rh.1.wifi_available = b := by
  cases o <;> simp [FilterClause.eval]

theorem all_outletsBlock (o : Option Bool) (rh : SpotRow × HoursRow) :
    ((match o with
      | some b => [FilterClause.outletsEq b]
      | none => []).all (fun c => c.eval rh)) = true ↔
      ∀ b, o = some b → rh.1.outlets = b := by
  cases o <;> simp [FilterClause.eval]

theorem all_seatingBlock (o : Option Seating) (rh : SpotRow × HoursRow) :
    ((match o with
      | some s => [FilterClause.seatingEq s.value]
      | none => []).all (fun c => c.eval rh)) = true ↔
      ∀ s, o = some s → rh.1.seating = s.value := by
  cases o <;> simp [FilterClause.eval]

theorem all_refreshmentsBlock (o : Option String) (rh : SpotRow × HoursRow) :
    ((match o with
      | some t => if t.isEmpty then []
                  else [FilterClause.refreshmentsLike (containsPattern t)]
      | none => []).all (fun c => c.eval rh)) = true ↔
      ∀ t, o = some t → t.isEmpty = false →
        FilterClause.eval (.refreshmentsLike (containsPattern t)) rh = true := by
  cases o with
  | none => simp
  | some t => cases h : t.isEmpty <;> simp [h]

theorem all_environmentBlock (o : Option Environment)
    (rh : SpotRow × HoursRow) :
    ((match o with
      | some e => [FilterClause.envContains e.value]
      | none => []).all (fun c => c.eval rh)) = true ↔
      ∀ e, o = some e → rh.1.environment.contains e.value = true := by
  cases o <;> simp [FilterClause.eval]

theorem all_openDayBlock (o : Option DayOfWeek) (rh : SpotRow × HoursRow) :
    ((match o with
      | some d => [FilterClause.openDayNotNull d]
      | none => []).all (fun c => c.eval rh)) = true ↔
      ∀ d, o = some d → (rh.2.hf.get d true).isSome = true := by
  cases o <;> simp [FilterClause.eval]

theorem all_openNowBlock (o : Option Bool) (cd : DayOfWeek) (ct : Nat)
    (rh : SpotRow × HoursRow) :
    ((match o with
      | some true => [FilterClause.openNowBetween cd ct]
      | _ => []).all (fun c => c.eval rh)) = true ↔
      (o = some true → FilterClause.eval (.openNowBetween cd ct) rh = true) := by
  cases o with
  | none => simp
  | some b => cases b <;> simp

/-- The query builder's contract, as the spec states it: a joined row
satisfies the built WHERE predicate exactly when it satisfies the
conjunction of only the supplied filters — exact match for the boolean and
enum parameters, `LIKE '%v%'` for the free-text ones, `IS NOT NULL` for
`open_day`, the two time comparisons against the server clock for
`open_now = true` — and an unsupplied (or empty-string, or non-`true`
`open_now`) parameter imposes no constraint at all. -/
theorem matchesRow_conjunction (f : ListFilters) (cd : DayOfWeek) (ct : Nat)
    (rh : SpotRow × HoursRow) :
    matchesRow f cd ct rh = true ↔
      ((∀ n, f.name = some n → n.isEmpty = false →
          sqlLike (containsPattern n) rh.1.name = true) ∧
       (∀ nb, f.neighborhood = some nb → rh.1.neighborhood = nb.value) ∧
       (∀ b, f.wifi = some b → rh.1.wifi_available = b) ∧
       (∀ b, f.outlets = some b → rh.1.outlets = b) ∧
       (∀ s, f.seating = some s → rh.1.seating = s.value) ∧
       (∀ t, f.refreshments = some t → t.isEmpty = false →
          FilterClause.eval (.refreshmentsLike (containsPattern t)) rh = true) ∧
       (∀ e, f.environment = some e →
          rh.1.environment.contains e.value = true) ∧
       (∀ d, f.open_day = some d → (rh.2.hf.get d true).isSome = true) ∧
       (f.open_now = some true →
          FilterClause.eval (.openNowBetween cd ct) rh = true)) := by
  unfold matchesRow buildClauses
  simp only [List.all_append, Bool.and_eq_true, all_nameBlock,
    all_neighborhoodBlock, all_wifiBlock, all_outletsBlock, all_seatingBlock,
    all_refreshmentsBlock, all_environmentBlock, all_openDayBlock,
    all_openNowBlock]
  tauto


theorem mapM_option_length {α β : Type} (f : α → Option β) :
    ∀ (l : List α) (l2 : List β), l.mapM f = some l2 → l2.length = l.length := by
  intro l
  induction l with
  | nil =>
      intro l2 h
      simp only [List.mapM_nil] at h
      injection h with h
      subst h
      rfl
  | cons x xs ih =>
      intro l2 h
      rw [List.mapM_cons] at h
      cases hx : f x with
      | none => rw [hx] at h; simp at h
      | some b =>
          rw [hx] at h
          cases hxs : xs.mapM f with
          | none => rw [hxs] at h; simp at h
          | some bs =>
              rw [hxs] at h
              simp at h
              subst h
              simp [ih bs hxs]


/-- The success path of `GET /studyspots`: whenever the requested page of
the filtered join is nonempty (and every row on it converts), the response
holds exactly the rows at offsets `(page-1)*page_size ..` of the filtered
result — at most `page_size` of them — and the page count derived from the
count query is `max 1 (ceil(total matching / page_size))`, which equals
the plain ceiling because at least one row matched. -/
theorem list_studyspots_success (db : DB) (f : ListFilters)
    (cd : DayOfWeek) (ct : Nat) (page pageSize : Int)
    (outs : List StudySpotOut)
    (hoff : 0 ≤ (page - 1) * pageSize) (hps : 0 ≤ pageSize)
    (hmap : ((((joinRows db).filter (matchesRow f cd ct)).drop
        ((page - 1) * pageSize).toNat).take pageSize.toNat).mapM
        (fun rh => rowToOut rh.1 rh.2.hf) = some outs)
    (hne : ((((joinRows db).filter (matchesRow f cd ct)).drop
        ((page - 1) * pageSize).toNat).take pageSize.toNat).isEmpty = false) :
    list_studyspots db f cd ct page pageSize =
      (db, .ok { items := outs
                 totalPages := max 1 (pyCeilDiv
                   ((joinRows db).filter (matchesRow f cd ct)).length
                   pageSize.toNat) }) ∧
    outs.length ≤ pageSize.toNat := by
  constructor
  · unfold list_studyspots
    have h1 : (decide ((page - 1) * pageSize < 0) || decide (pageSize < 0)) =
        false := by
      rw [decide_eq_false (not_lt.mpr hoff), decide_eq_false (not_lt.mpr hps)]
      rfl
    dsimp only
    rw [h1, if_neg Bool.false_ne_true, hne, if_neg Bool.false_ne_true, hmap]
  · rw [mapM_option_length _ _ _ hmap, List.length_take]
    exact Nat.min_le_left _ _

end StudySpotApi

